import Mathlib

/-!
Verification development for the EE871 E2-bus CO2 sensor driver.

The definitions below are a shallow embedding of the C++ sources:
`Status.h` (error taxonomy), `Config.h` (configuration record),
`CommandTable.h` (protocol constants) and `EE871.cpp` (bit layer, frame
layer, device operations and the health state machine).

The HAL (five line-level callbacks) is modelled as an abstract oracle:
a type `O` together with a `LineOps O` record.  Setting a line or
delaying transforms the oracle state; reading a line returns a boolean
and a successor state, so arbitrary device behaviour (including clock
stretching and NACKs) is expressible.  Machine integers are modelled as
`Nat` with explicit saturation bounds where the code saturates.
-/

set_option linter.unusedVariables false

namespace EE871

/-- Error codes for all EE871 operations, from `Status.h`. -/
inductive Err : Type where
  | OK
  | NOT_INITIALIZED
  | INVALID_CONFIG
  | E2_ERROR
  | TIMEOUT
  | INVALID_PARAM
  | DEVICE_NOT_FOUND
  | PEC_MISMATCH
  | NACK
  | BUSY
  | IN_PROGRESS
  | BUS_STUCK
  | ALREADY_INITIALIZED
  | OUT_OF_RANGE
  | NOT_SUPPORTED
  deriving DecidableEq, Repr

/-- Status structure returned by all fallible operations, from `Status.h`:
a kind, a signed 32-bit detail and a short static message. -/
structure Status : Type where
  code : Err
  detail : Int
  msg : String
  deriving DecidableEq, Repr

/-- `Status::ok()`: true iff the kind is OK. -/
def Status.ok (s : Status) : Bool :=
  s.code = Err.OK

/-- `Status::Ok()`. -/
def Status.Ok : Status :=
  ⟨Err.OK, 0, "OK"⟩

/-- `Status::Error(err, message)` with the defaulted detail 0. -/
def Status.Error (e : Err) (m : String) : Status :=
  ⟨e, 0, m⟩

/-- `Status::Error(err, message, detailCode)`. -/
def Status.ErrorD (e : Err) (m : String) (d : Int) : Status :=
  ⟨e, d, m⟩

/-- Driver state for health monitoring, from `EE871.h`. -/
inductive DriverState : Type where
  | UNINIT
  | READY
  | DEGRADED
  | OFFLINE
  deriving DecidableEq, Repr

/-- Configuration for the EE871 driver, from `Config.h`.  The five HAL
callbacks are function pointers in C++; only their null-ness is relevant
to the driver logic, so each is modelled by a presence flag. -/
structure Config : Type where
  hasSetScl : Bool
  hasSetSda : Bool
  hasReadScl : Bool
  hasReadSda : Bool
  hasDelayUs : Bool
  deviceAddress : Nat
  clockLowUs : Nat
  clockHighUs : Nat
  startHoldUs : Nat
  stopHoldUs : Nat
  bitTimeoutUs : Nat
  byteTimeoutUs : Nat
  writeDelayMs : Nat
  intervalWriteDelayMs : Nat
  offlineThreshold : Nat
  deriving DecidableEq, Repr

/-- The driver instance state: configuration snapshot, lifecycle flag,
health machine fields and the feature caches, from `EE871.h` members. -/
structure Driver : Type where
  config : Config
  initialized : Bool
  driverState : DriverState
  nowMs : Nat
  lastOkMs : Nat
  lastErrorMs : Nat
  lastError : Status
  consecutiveFailures : Nat
  totalFailures : Nat
  totalSuccess : Nat
  operatingFunctions : Nat
  operatingModeSupport : Nat
  specialFeatures : Nat
  deriving DecidableEq, Repr

/-- Saturation bound of the uint8 consecutive-failure counter. -/
def UINT8_MAX : Nat := 255

/-- Saturation bound of the uint32 lifetime counters. -/
def UINT32_MAX : Nat := 4294967295

/-! Protocol constants from `CommandTable.h`. -/

def DEVICE_ADDRESS_MAX : Nat := 7
def MAIN_TYPE_LO : Nat := 0x1
def MAIN_CUSTOM_WRITE : Nat := 0x1
def MAIN_TYPE_SUB : Nat := 0x2
def MAIN_TYPE_HI : Nat := 0x4
def MAIN_CUSTOM_PTR : Nat := 0x5
def SENSOR_GROUP_ID : Nat := 0x0367
def CUSTOM_OPERATING_FUNCTIONS : Nat := 0x07
def CUSTOM_INTERVAL_L : Nat := 0xC6
def CUSTOM_INTERVAL_H : Nat := 0xC7
def INTERVAL_MIN_DECISEC : Nat := 150
def INTERVAL_MAX_DECISEC : Nat := 36000
def BUS_RESET_CLOCKS : Nat := 9
def FEATURE_GLOBAL_INTERVAL : Nat := 0x10

/-- Modelled from the spec: `cmd::WRITE_DELAY_MAX_MS` is used by
`EE871::begin` but its definition is not among the available headers
(the changelog records its addition to `CommandTable.h`).  The spec
bounds the single-byte flash-commit delay by 5000 ms. -/
def WRITE_DELAY_MAX_MS : Nat := 5000

/-- Modelled from the spec: `cmd::INTERVAL_WRITE_DELAY_MAX_MS` is used by
`EE871::begin` but its definition is not among the available headers.
The spec bounds the interval-pair flash-commit delay by 5000 ms. -/
def INTERVAL_WRITE_DELAY_MAX_MS : Nat := 5000

/-- Modelled from the spec: `cmd::CUSTOM_MEMORY_SIZE` is used by
`EE871::customRead` but its definition is not among the available
headers.  The custom memory is 8-bit addressed, so reads must satisfy
address + length ≤ 256. -/
def CUSTOM_MEMORY_SIZE : Nat := 256

/-- `cmd::makeControlByte`: bits 7..4 main nibble, 3..1 device address,
bit 0 read/write.  The cast to uint8 is the final mod 256. -/
def makeControlByte (mainCommandNibble deviceAddress : Nat) (read : Bool) : Nat :=
  ((mainCommandNibble <<< 4) ||| ((deviceAddress &&& 0x07) <<< 1) |||
    (if read then 1 else 0)) % 256

/-- `cmd::makeControlRead`. -/
def makeControlRead (mainCommandNibble deviceAddress : Nat) : Nat :=
  makeControlByte mainCommandNibble deviceAddress true

/-- `cmd::makeControlWrite`. -/
def makeControlWrite (mainCommandNibble deviceAddress : Nat) : Nat :=
  makeControlByte mainCommandNibble deviceAddress false

/-- `calcPecRead`: PEC for a read = (control + data) mod 256. -/
def calcPecRead (controlByte dataByte : Nat) : Nat :=
  (controlByte + dataByte) % 256

/-- `calcPecWrite`: PEC for a write = (control + address + data) mod 256. -/
def calcPecWrite (controlByte addressByte dataByte : Nat) : Nat :=
  (controlByte + addressByte + dataByte) % 256

/-- The HAL contract: the five line-level callbacks over an abstract
oracle state `O`.  Reads return the sampled level and a successor
oracle, so any device behaviour can be expressed. -/
structure LineOps (O : Type) where
  setScl : Bool → O → O
  setSda : Bool → O → O
  readScl : O → Bool × O
  readSda : O → Bool × O
  delayUs : Nat → O → O

variable {O : Type}

/-- `delayUs(cfg, us, elapsedUs)`: delay and bump the optional per-byte
elapsed accumulator. -/
def delayE (ops : LineOps O) (us : Nat) (elapsed : Option Nat) (o : O) :
    Option Nat × O :=
  (elapsed.map (fun e => e + us), ops.delayUs us o)

/-- The polling loop of `waitSclHigh`: while SCL reads low, fail with
TIMEOUT once the per-bit budget is exceeded or the per-byte accumulator
would pass its budget, else poll again after 5 µs. -/
def waitSclHighAux (ops : LineOps O) (cfg : Config) (waited : Nat)
    (elapsed : Option Nat) (o : O) : (Status × Option Nat) × O :=
  match ops.readScl o with
  | (scl, o) =>
    if scl then ((Status.Ok, elapsed), o)
    else if h : waited ≥ cfg.bitTimeoutUs then
      ((Status.ErrorD Err.TIMEOUT "Clock stretch timeout" waited, elapsed), o)
    else
      match elapsed with
      | some e =>
        if e + 5 > cfg.byteTimeoutUs then
          ((Status.ErrorD Err.TIMEOUT "Byte timeout" e, some e), o)
        else
          waitSclHighAux ops cfg (waited + 5) (some (e + 5)) (ops.delayUs 5 o)
      | none => waitSclHighAux ops cfg (waited + 5) none (ops.delayUs 5 o)
termination_by cfg.bitTimeoutUs - waited
decreasing_by
  all_goals omega

/-- `waitSclHigh`. -/
def waitSclHigh (ops : LineOps O) (cfg : Config) (elapsed : Option Nat)
    (o : O) : (Status × Option Nat) × O :=
  waitSclHighAux ops cfg 0 elapsed o

/-- `e2Start`: release both lines, wait for SCL to rise, hold, pull SDA
low, hold, pull SCL low, clock-low wait. -/
def e2Start (ops : LineOps O) (cfg : Config) (o : O) : Status × O :=
  let o := ops.setSda true o
  let o := ops.setScl true o
  match waitSclHigh ops cfg none o with
  | ((st, _), o) =>
    if st.ok then
      let o := ops.delayUs cfg.startHoldUs o
      let o := ops.setSda false o
      let o := ops.delayUs cfg.startHoldUs o
      let o := ops.setScl false o
      let o := ops.delayUs cfg.clockLowUs o
      (Status.Ok, o)
    else (st, o)

/-- `e2Stop`: with SCL low drive SDA low, setup, release SCL, wait for
rise, hold, release SDA, hold. -/
def e2Stop (ops : LineOps O) (cfg : Config) (o : O) : Status × O :=
  let o := ops.setSda false o
  let o := ops.delayUs 10 o
  let o := ops.setScl true o
  match waitSclHigh ops cfg none o with
  | ((st, _), o) =>
    if st.ok then
      let o := ops.delayUs cfg.stopHoldUs o
      let o := ops.setSda true o
      let o := ops.delayUs cfg.stopHoldUs o
      (Status.Ok, o)
    else (st, o)

/-- `writeBit`. -/
def writeBit (ops : LineOps O) (cfg : Config) (bit : Bool)
    (elapsed : Option Nat) (o : O) : (Status × Option Nat) × O :=
  let o := ops.setSda bit o
  match delayE ops 10 elapsed o with
  | (elapsed, o) =>
    let o := ops.setScl true o
    match waitSclHigh ops cfg elapsed o with
    | ((st, elapsed), o) =>
      if st.ok then
        match delayE ops cfg.clockHighUs elapsed o with
        | (elapsed, o) =>
          let o := ops.setScl false o
          match delayE ops cfg.clockLowUs elapsed o with
          | (elapsed, o) => ((Status.Ok, elapsed), o)
      else ((st, elapsed), o)

/-- `readBit`: release SDA, setup, release SCL, wait for rise, sample in
the middle of the high phase. -/
def readBit (ops : LineOps O) (cfg : Config) (elapsed : Option Nat)
    (o : O) : (Status × Bool × Option Nat) × O :=
  let o := ops.setSda true o
  match delayE ops 10 elapsed o with
  | (elapsed, o) =>
    let o := ops.setScl true o
    match waitSclHigh ops cfg elapsed o with
    | ((st, elapsed), o) =>
      if st.ok then
        match delayE ops (cfg.clockHighUs / 2) elapsed o with
        | (elapsed, o) =>
          match ops.readSda o with
          | (bit, o) =>
            match delayE ops (cfg.clockHighUs - cfg.clockHighUs / 2) elapsed o with
            | (elapsed, o) =>
              let o := ops.setScl false o
              match delayE ops cfg.clockLowUs elapsed o with
              | (elapsed, o) => ((Status.Ok, bit, elapsed), o)
      else ((st, false, elapsed), o)

/-- The MSB-first bit positions of one byte. -/
def byteBits : List Nat := [7, 6, 5, 4, 3, 2, 1, 0]

/-- The loop of `writeByte` over the remaining bit positions. -/
def writeByteAux (ops : LineOps O) (cfg : Config) (value : Nat) :
    List Nat → Option Nat → O → (Status × Option Nat) × O
  | [], elapsed, o => ((Status.Ok, elapsed), o)
  | k :: rest, elapsed, o =>
    match writeBit ops cfg (Nat.testBit value k) elapsed o with
    | ((st, elapsed), o) =>
      if st.ok then writeByteAux ops cfg value rest elapsed o
      else ((st, elapsed), o)

/-- `writeByte`: eight MSB-first `writeBit` calls sharing the elapsed
accumulator. -/
def writeByte (ops : LineOps O) (cfg : Config) (value : Nat)
    (elapsed : Option Nat) (o : O) : (Status × Option Nat) × O :=
  writeByteAux ops cfg value byteBits elapsed o

/-- The loop of `readByte`, assembling into `acc`. -/
def readByteAux (ops : LineOps O) (cfg : Config) :
    List Nat → Nat → Option Nat → O → (Status × Nat × Option Nat) × O
  | [], acc, elapsed, o => ((Status.Ok, acc, elapsed), o)
  | k :: rest, acc, elapsed, o =>
    match readBit ops cfg elapsed o with
    | ((st, bit, elapsed), o) =>
      if st.ok then
        readByteAux ops cfg rest (if bit then acc ||| (1 <<< k) else acc) elapsed o
      else ((st, acc, elapsed), o)

/-- `readByte`: value starts at zero, eight MSB-first `readBit` calls. -/
def readByte (ops : LineOps O) (cfg : Config) (elapsed : Option Nat)
    (o : O) : (Status × Nat × Option Nat) × O :=
  readByteAux ops cfg byteBits 0 elapsed o

/-- `readAck`: like `readBit`, but acknowledged iff the sampled SDA level
is low. -/
def readAck (ops : LineOps O) (cfg : Config) (elapsed : Option Nat)
    (o : O) : (Status × Bool × Option Nat) × O :=
  let o := ops.setSda true o
  match delayE ops 10 elapsed o with
  | (elapsed, o) =>
    let o := ops.setScl true o
    match waitSclHigh ops cfg elapsed o with
    | ((st, elapsed), o) =>
      if st.ok then
        match delayE ops (cfg.clockHighUs / 2) elapsed o with
        | (elapsed, o) =>
          match ops.readSda o with
          | (sda, o) =>
            match delayE ops (cfg.clockHighUs - cfg.clockHighUs / 2) elapsed o with
            | (elapsed, o) =>
              let o := ops.setScl false o
              match delayE ops cfg.clockLowUs elapsed o with
              | (elapsed, o) => ((Status.Ok, !sda, elapsed), o)
      else ((st, false, elapsed), o)

/-- `sendAck`: drive SDA low for ACK (release for NACK), clock one
period, release SDA. -/
def sendAck (ops : LineOps O) (cfg : Config) (ack : Bool)
    (elapsed : Option Nat) (o : O) : (Status × Option Nat) × O :=
  let o := ops.setSda (!ack) o
  match delayE ops 10 elapsed o with
  | (elapsed, o) =>
    let o := ops.setScl true o
    match waitSclHigh ops cfg elapsed o with
    | ((st, elapsed), o) =>
      if st.ok then
        match delayE ops cfg.clockHighUs elapsed o with
        | (elapsed, o) =>
          let o := ops.setScl false o
          match delayE ops cfg.clockLowUs elapsed o with
          | (elapsed, o) =>
            let o := ops.setSda true o
            ((Status.Ok, elapsed), o)
      else ((st, elapsed), o)

/-- `sleepMs`: delayMs iterations of a 1000 µs delay. -/
def sleepMsL (ops : LineOps O) : Nat → O → O
  | 0, o => o
  | n + 1, o => sleepMsL ops n (ops.delayUs 1000 o)

/-- Best-effort STOP on an abort path: the status is discarded. -/
def abortStop (ops : LineOps O) (cfg : Config) (o : O) : O :=
  (e2Stop ops cfg o).2

/-- `EE871::_readControlByteRaw`: START; send control; observe ACK; read
data; ACK; read PEC; NACK; STOP; verify PEC.  `data0` is the value the
caller's out-parameter holds at entry; the second result component is
the value it holds on return. -/
def readControlByteRaw (ops : LineOps O) (cfg : Config)
    (controlByte data0 : Nat) (o : O) : (Status × Nat) × O :=
  match e2Start ops cfg o with
  | (st, o) =>
    if st.ok then
      match writeByte ops cfg controlByte (some 0) o with
      | ((st, e), o) =>
        if st.ok then
          match readAck ops cfg e o with
          | ((st, acked, _), o) =>
            if st.ok then
              if acked then
                match readByte ops cfg (some 0) o with
                | ((st, data, e), o) =>
                  if st.ok then
                    match sendAck ops cfg true e o with
                    | ((st, _), o) =>
                      if st.ok then
                        match readByte ops cfg (some 0) o with
                        | ((st, pec, e), o) =>
                          if st.ok then
                            match sendAck ops cfg false e o with
                            | ((st, _), o) =>
                              if st.ok then
                                match e2Stop ops cfg o with
                                | (st, o) =>
                                  if st.ok then
                                    if pec = calcPecRead controlByte data then
                                      ((Status.Ok, data), o)
                                    else
                                      ((Status.ErrorD Err.PEC_MISMATCH "PEC mismatch" pec, data), o)
                                  else ((st, data), o)
                              else ((st, data), abortStop ops cfg o)
                          else ((st, data), abortStop ops cfg o)
                      else ((st, data), abortStop ops cfg o)
                  else ((st, data), abortStop ops cfg o)
              else
                ((Status.Error Err.NACK "Control byte NACK", data0), abortStop ops cfg o)
            else ((st, data0), abortStop ops cfg o)
        else ((st, data0), abortStop ops cfg o)
    else ((st, data0), o)

/-- `EE871::_writeCommandRaw`: START; send control, address, data and PEC,
observing the ACK after each; STOP.  Any NACK aborts with a best-effort
STOP and a NACK status naming the refused byte in its message. -/
def writeCommandRaw (ops : LineOps O) (cfg : Config)
    (controlByte addressByte dataByte : Nat) (o : O) : Status × O :=
  match e2Start ops cfg o with
  | (st, o) =>
    if st.ok then
      match writeByte ops cfg controlByte (some 0) o with
      | ((st, e), o) =>
        if st.ok then
          match readAck ops cfg e o with
          | ((st, acked, _), o) =>
            if st.ok then
              if acked then
                match writeByte ops cfg addressByte (some 0) o with
                | ((st, e), o) =>
                  if st.ok then
                    match readAck ops cfg e o with
                    | ((st, acked, _), o) =>
                      if st.ok then
                        if acked then
                          match writeByte ops cfg dataByte (some 0) o with
                          | ((st, e), o) =>
                            if st.ok then
                              match readAck ops cfg e o with
                              | ((st, acked, _), o) =>
                                if st.ok then
                                  if acked then
                                    match writeByte ops cfg
                                        (calcPecWrite controlByte addressByte dataByte)
                                        (some 0) o with
                                    | ((st, e), o) =>
                                      if st.ok then
                                        match readAck ops cfg e o with
                                        | ((st, acked, _), o) =>
                                          if st.ok then
                                            if acked then e2Stop ops cfg o
                                            else
                                              (Status.Error Err.NACK "PEC NACK",
                                                abortStop ops cfg o)
                                          else (st, abortStop ops cfg o)
                                      else (st, abortStop ops cfg o)
                                  else
                                    (Status.Error Err.NACK "Data byte NACK",
                                      abortStop ops cfg o)
                                else (st, abortStop ops cfg o)
                            else (st, abortStop ops cfg o)
                        else
                          (Status.Error Err.NACK "Address byte NACK",
                            abortStop ops cfg o)
                      else (st, abortStop ops cfg o)
                  else (st, abortStop ops cfg o)
              else
                (Status.Error Err.NACK "Control byte NACK", abortStop ops cfg o)
            else (st, abortStop ops cfg o)
        else (st, abortStop ops cfg o)
    else (st, o)

/-- `EE871::_updateHealth`, the single site updating the health machine.
The C++ function returns its argument unchanged; here it returns the
updated driver and callers reuse the status. -/
def updateHealth (d : Driver) (st : Status) : Driver :=
  if d.initialized then
    if st.ok then
      { d with
        lastOkMs := d.nowMs
        consecutiveFailures := 0
        totalSuccess :=
          if d.totalSuccess ≠ UINT32_MAX then d.totalSuccess + 1 else d.totalSuccess
        driverState := DriverState.READY }
    else
      let cf :=
        if d.consecutiveFailures ≠ UINT8_MAX then d.consecutiveFailures + 1
        else d.consecutiveFailures
      { d with
        lastErrorMs := d.nowMs
        lastError := st
        totalFailures :=
          if d.totalFailures ≠ UINT32_MAX then d.totalFailures + 1 else d.totalFailures
        consecutiveFailures := cf
        driverState :=
          if cf ≥ d.config.offlineThreshold then DriverState.OFFLINE
          else DriverState.DEGRADED }
  else d

/-- The raw transaction layer as seen by the device operations: one read
transaction, one write transaction, and the flash-commit sleep.  `T` is
the abstract bus state; instantiating it with the frame layer over
`LineOps` gives the concrete stack. -/
structure Transport (T : Type) where
  readRaw : Nat → Nat → T → (Status × Nat) × T
  writeRaw : Nat → Nat → Nat → T → Status × T
  sleepMs : Nat → T → T

/-- The concrete transport: the frame layer over the line-level HAL. -/
def frameTransport (ops : LineOps O) (cfg : Config) : Transport O where
  readRaw := fun c d0 o => readControlByteRaw ops cfg c d0 o
  writeRaw := fun c a v o => writeCommandRaw ops cfg c a v o
  sleepMs := fun ms o => sleepMsL ops ms o

variable {T : Type}

/-- `EE871::_readControlByteTracked`: raw read, then the health update. -/
def readControlByteTracked (tr : Transport T) (d : Driver)
    (controlByte data0 : Nat) (t : T) : ((Status × Nat) × Driver) × T :=
  match tr.readRaw controlByte data0 t with
  | ((st, v), t) => (((st, v), updateHealth d st), t)

/-- `EE871::_writeCommandTracked`: raw write, then the health update. -/
def writeCommandTracked (tr : Transport T) (d : Driver)
    (controlByte addressByte dataByte : Nat) (t : T) : (Status × Driver) × T :=
  match tr.writeRaw controlByte addressByte dataByte t with
  | (st, t) => ((st, updateHealth d st), t)

/-- `EE871::readControlByte(mainCommandNibble, data)`: precondition
checks, then a tracked read with the assembled control byte. -/
def readControlByteOp (tr : Transport T) (d : Driver)
    (mainCommandNibble data0 : Nat) (t : T) : ((Status × Nat) × Driver) × T :=
  if d.initialized then
    if mainCommandNibble > 0x0F then
      (((Status.Error Err.INVALID_PARAM "Invalid main command", data0), d), t)
    else
      readControlByteTracked tr d
        (makeControlRead mainCommandNibble d.config.deviceAddress) data0 t
  else (((Status.Error Err.NOT_INITIALIZED "Driver not initialized", data0), d), t)

/-- `EE871::setCustomPointer(address)`: range check, then a tracked
pointer-set write (nibble 0x5 write, upper byte, lower byte). -/
def setCustomPointer (tr : Transport T) (d : Driver) (address : Nat)
    (t : T) : (Status × Driver) × T :=
  if d.initialized then
    if address > 0xFF then
      ((Status.ErrorD Err.OUT_OF_RANGE "Custom pointer > 0xFF" address, d), t)
    else
      writeCommandTracked tr d
        (makeControlWrite MAIN_CUSTOM_PTR d.config.deviceAddress)
        (address >>> 8) (address &&& 0xFF) t
  else ((Status.Error Err.NOT_INITIALIZED "Driver not initialized", d), t)

/-- The read loop of `EE871::customRead(address, buf, len)`: `n` bytes
remain, the next going to index `i` of `buf`. -/
def customReadLoop (tr : Transport T) :
    Nat → Nat → Driver → List Nat → T → ((Status × List Nat) × Driver) × T
  | 0, _, d, buf, t => (((Status.Ok, buf), d), t)
  | n + 1, i, d, buf, t =>
    match readControlByteOp tr d MAIN_CUSTOM_PTR (buf.getD i 0) t with
    | (((st, v), d), t) =>
      let buf := buf.set i v
      if st.ok then customReadLoop tr n (i + 1) d buf t
      else (((st, buf), d), t)

/-- `EE871::customRead(address, buf, len)`: parameter checks, the range
check against the custom memory size, one pointer-set write, then `len`
pointer reads relying on device auto-increment.  `bufNull` models the
C++ null-buffer check; `buf` is the caller's buffer contents. -/
def customReadBlk (tr : Transport T) (d : Driver) (address : Nat)
    (bufNull : Bool) (buf : List Nat) (len : Nat) (t : T) :
    ((Status × List Nat) × Driver) × T :=
  if bufNull ∨ len = 0 then
    (((Status.Error Err.INVALID_PARAM "Invalid buffer", buf), d), t)
  else if len > CUSTOM_MEMORY_SIZE - address then
    (((Status.Error Err.OUT_OF_RANGE "Read exceeds custom memory map", buf), d), t)
  else
    match setCustomPointer tr d address t with
    | ((st, d), t) =>
      if st.ok then customReadLoop tr len 0 d buf t
      else (((st, buf), d), t)

/-- `EE871::customRead(address, data)`: the single-byte overload, a block
read of length one into the caller's variable. -/
def customRead1 (tr : Transport T) (d : Driver) (address v0 : Nat)
    (t : T) : ((Status × Nat) × Driver) × T :=
  match customReadBlk tr d address false [v0] 1 t with
  | (((st, buf), d), t) => (((st, buf.getD 0 v0), d), t)

/-- Modelled from the spec: `EE871::hasGlobalInterval()` is used by
`writeMeasurementInterval` but its definition is not among the available
headers.  Feature gating tests the cached operating-functions bitfield
against `cmd::FEATURE_GLOBAL_INTERVAL` (bit 4). -/
def hasGlobalInterval (d : Driver) : Bool :=
  d.operatingFunctions &&& FEATURE_GLOBAL_INTERVAL ≠ 0

/-- The verification tail of `EE871::writeMeasurementInterval`: read the
two interval bytes back and compare the assembled 16-bit value. -/
def wmiVerify (tr : Transport T) (d : Driver) (intervalDeciSeconds : Nat)
    (t : T) : (Status × Driver) × T :=
  match customRead1 tr d CUSTOM_INTERVAL_L 0 t with
  | (((st, verifyLow), d), t) =>
    if st.ok then
      match customRead1 tr d CUSTOM_INTERVAL_H 0 t with
      | (((st, verifyHigh), d), t) =>
        if st.ok then
          if (verifyLow ||| (verifyHigh <<< 8)) = intervalDeciSeconds then
            ((Status.Ok, d), t)
          else
            ((Status.ErrorD Err.E2_ERROR "Interval verify failed"
                (verifyLow ||| (verifyHigh <<< 8)), d), t)
        else ((st, d), t)
    else ((st, d), t)

/-- The bus part of `EE871::writeMeasurementInterval` after the guards:
with the control byte computed up front, two tracked byte writes (0xC6
low then 0xC7 high), the pair flash-commit sleep, then the verification
reads. -/
def wmiWrites (tr : Transport T) (d : Driver)
    (control intervalDeciSeconds : Nat) (t : T) : (Status × Driver) × T :=
  match writeCommandTracked tr d control
      CUSTOM_INTERVAL_L (intervalDeciSeconds &&& 0xFF) t with
  | ((st, d), t) =>
    if st.ok then
      match writeCommandTracked tr d control
          CUSTOM_INTERVAL_H (intervalDeciSeconds >>> 8) t with
      | ((st, d), t) =>
        if st.ok then
          wmiVerify tr d intervalDeciSeconds
            (tr.sleepMs d.config.intervalWriteDelayMs t)
        else ((st, d), t)
    else ((st, d), t)

/-- `EE871::writeMeasurementInterval(intervalDeciSeconds)`: guards and
the range check 150..36000, then the write/sleep/verify sequence with
the control byte assembled from the snapshot configuration. -/
def writeMeasurementInterval (tr : Transport T) (d : Driver)
    (intervalDeciSeconds : Nat) (t : T) : (Status × Driver) × T :=
  if d.initialized then
    if hasGlobalInterval d then
      if intervalDeciSeconds < INTERVAL_MIN_DECISEC ∨
          intervalDeciSeconds > INTERVAL_MAX_DECISEC then
        ((Status.ErrorD Err.OUT_OF_RANGE "Interval must be 150-36000 (15-3600s)"
            intervalDeciSeconds, d), t)
      else
        wmiWrites tr d (makeControlWrite MAIN_CUSTOM_WRITE d.config.deviceAddress)
          intervalDeciSeconds t
    else ((Status.Error Err.NOT_SUPPORTED "Global interval not supported", d), t)
  else ((Status.Error Err.NOT_INITIALIZED "Driver not initialized", d), t)

/-- `EE871::probe`: two raw identity reads (type low 0x1, type high 0x4),
group check against 0x0367.  Raw: no health update anywhere. -/
def probe (ops : LineOps O) (d : Driver) (o : O) : (Status × Driver) × O :=
  if d.initialized then
    match readControlByteRaw ops d.config
        (makeControlRead MAIN_TYPE_LO d.config.deviceAddress) 0 o with
    | ((st, low), o) =>
      if st.ok then
        match readControlByteRaw ops d.config
            (makeControlRead MAIN_TYPE_HI d.config.deviceAddress) 0 o with
        | ((st, high), o) =>
          if st.ok then
            if (low ||| (high <<< 8)) = SENSOR_GROUP_ID then ((Status.Ok, d), o)
            else
              ((Status.ErrorD Err.DEVICE_NOT_FOUND "Unexpected group id"
                  (low ||| (high <<< 8)), d), o)
          else ((st, d), o)
      else ((st, d), o)
  else ((Status.Error Err.NOT_INITIALIZED "Driver not initialized", d), o)

/-- The stretch wait inside the bus-reset loops:
`while (!readScl && waited < bitTimeoutUs) { delay 5; waited += 5 }`,
returning the final `waited`. -/
def busWait (ops : LineOps O) (cfg : Config) (waited : Nat) (o : O) :
    Nat × O :=
  match ops.readScl o with
  | (scl, o) =>
    if scl then (waited, o)
    else if h : waited < cfg.bitTimeoutUs then
      busWait ops cfg (waited + 5) (ops.delayUs 5 o)
    else (waited, o)
termination_by cfg.bitTimeoutUs - waited
decreasing_by
  all_goals omega

/-- The nine-clock loop of `EE871::busReset`, failing BUS_STUCK when the
stretch wait exhausted the per-bit budget. -/
def busResetLoop (ops : LineOps O) (cfg : Config) : Nat → O → Status × O
  | 0, o => (Status.Ok, o)
  | n + 1, o =>
    let o := ops.setScl false o
    let o := ops.delayUs cfg.clockLowUs o
    let o := ops.setScl true o
    match busWait ops cfg 0 o with
    | (waited, o) =>
      if waited ≥ cfg.bitTimeoutUs then
        (Status.Error Err.BUS_STUCK "SCL stuck during reset", o)
      else busResetLoop ops cfg n (ops.delayUs cfg.clockHighUs o)

/-- The nine-clock rescue loop inside `EE871::begin`: identical clocks,
but the exhausted stretch wait is not treated as an error. -/
def rescueLoop (ops : LineOps O) (cfg : Config) : Nat → O → O
  | 0, o => o
  | n + 1, o =>
    let o := ops.setScl false o
    let o := ops.delayUs cfg.clockLowUs o
    let o := ops.setScl true o
    match busWait ops cfg 0 o with
    | (_, o) => rescueLoop ops cfg n (ops.delayUs cfg.clockHighUs o)

/-- `EE871::busReset`: nine clocks with SDA high, then a STOP, then both
lines must read high (SDA is only sampled when SCL was high, mirroring
the short-circuit in the C++ condition). -/
def busReset (ops : LineOps O) (d : Driver) (o : O) : (Status × Driver) × O :=
  if d.initialized then
    let o := ops.setSda true o
    match busResetLoop ops d.config BUS_RESET_CLOCKS o with
    | (st, o) =>
      if st.ok then
        let o := ops.setScl false o
        let o := ops.delayUs d.config.clockLowUs o
        let o := ops.setSda false o
        let o := ops.delayUs 10 o
        let o := ops.setScl true o
        let o := ops.delayUs d.config.stopHoldUs o
        let o := ops.setSda true o
        let o := ops.delayUs d.config.stopHoldUs o
        match ops.readScl o with
        | (scl, o) =>
          if scl then
            match ops.readSda o with
            | (sda, o) =>
              if sda then ((Status.Ok, d), o)
              else ((Status.Error Err.BUS_STUCK "Bus stuck after reset", d), o)
          else ((Status.Error Err.BUS_STUCK "Bus stuck after reset", d), o)
      else ((st, d), o)
  else ((Status.Error Err.NOT_INITIALIZED "Driver not initialized", d), o)

/-- `EE871::checkBusIdle`: sample both lines, OK iff both high, else
BUS_STUCK naming the stuck line. -/
def checkBusIdle (ops : LineOps O) (d : Driver) (o : O) :
    (Status × Driver) × O :=
  if d.initialized then
    match ops.readScl o with
    | (sclHigh, o) =>
      match ops.readSda o with
      | (sdaHigh, o) =>
        if !sclHigh && !sdaHigh then
          ((Status.Error Err.BUS_STUCK "Both SCL and SDA stuck low", d), o)
        else if !sclHigh then
          ((Status.Error Err.BUS_STUCK "SCL stuck low", d), o)
        else if !sdaHigh then
          ((Status.Error Err.BUS_STUCK "SDA stuck low", d), o)
        else ((Status.Ok, d), o)
  else ((Status.Error Err.NOT_INITIALIZED "Driver not initialized", d), o)

/-- The configuration-validation prefix of `EE871::begin`, in source
order; `none` means the configuration passed every check. -/
def beginValidate (cfg : Config) : Option Status :=
  if !cfg.hasSetScl || !cfg.hasSetSda || !cfg.hasReadScl ||
      !cfg.hasReadSda || !cfg.hasDelayUs then
    some (Status.Error Err.INVALID_CONFIG "Missing E2 callbacks")
  else if cfg.deviceAddress > DEVICE_ADDRESS_MAX then
    some (Status.Error Err.INVALID_CONFIG "Invalid device address")
  else if cfg.clockLowUs < 100 ∨ cfg.clockHighUs < 100 then
    some (Status.Error Err.INVALID_CONFIG "Clock timing below spec")
  else if cfg.startHoldUs < 4 ∨ cfg.stopHoldUs < 4 then
    some (Status.Error Err.INVALID_CONFIG "Start/stop hold below spec")
  else if cfg.bitTimeoutUs = 0 ∨ cfg.byteTimeoutUs = 0 then
    some (Status.Error Err.INVALID_CONFIG "Timeouts must be non-zero")
  else if cfg.byteTimeoutUs < cfg.bitTimeoutUs then
    some (Status.Error Err.INVALID_CONFIG "byteTimeoutUs must be >= bitTimeoutUs")
  else if cfg.offlineThreshold = 0 then
    some (Status.Error Err.INVALID_CONFIG "offlineThreshold must be > 0")
  else if cfg.writeDelayMs > WRITE_DELAY_MAX_MS then
    some (Status.Error Err.INVALID_CONFIG "writeDelayMs exceeds safe limit")
  else if cfg.intervalWriteDelayMs > INTERVAL_WRITE_DELAY_MAX_MS then
    some (Status.Error Err.INVALID_CONFIG "intervalWriteDelayMs exceeds safe limit")
  else none

/-- The member assignments of `EE871::begin` after validation: snapshot
the configuration and zero every health field. -/
def resetDriver (d : Driver) (cfg : Config) : Driver :=
  { d with
    config := cfg
    initialized := false
    driverState := DriverState.UNINIT
    nowMs := 0
    lastOkMs := 0
    lastErrorMs := 0
    lastError := Status.Ok
    consecutiveFailures := 0
    totalFailures := 0
    totalSuccess := 0 }

/-- The pre-emptive rescue inside `EE871::begin`: SDA high, nine clocks,
then a STOP sequence. -/
def beginRescue (ops : LineOps O) (cfg : Config) (o : O) : O :=
  let o := ops.setSda true o
  let o := rescueLoop ops cfg BUS_RESET_CLOCKS o
  let o := ops.setScl false o
  let o := ops.delayUs cfg.clockLowUs o
  let o := ops.setSda false o
  let o := ops.delayUs 10 o
  let o := ops.setScl true o
  let o := ops.delayUs cfg.stopHoldUs o
  let o := ops.setSda true o
  ops.delayUs cfg.stopHoldUs o

/-- The post-rescue idle re-check inside `EE871::begin`; `true` means the
bus is usable (SDA is only sampled when SCL read high, mirroring the
short-circuit). -/
def beginBusRecheck (ops : LineOps O) (cfg : Config) (o : O) : Bool × O :=
  let o := beginRescue ops cfg o
  match ops.readScl o with
  | (scl, o) =>
    if scl then
      match ops.readSda o with
      | (sda, o) => (sda, o)
    else (false, o)

/-- The idle check at the top of `EE871::begin`: if either line reads low
(short-circuit order), rescue and re-check. -/
def beginBusPrep (ops : LineOps O) (cfg : Config) (o : O) : Bool × O :=
  match ops.readScl o with
  | (scl, o) =>
    if scl then
      match ops.readSda o with
      | (sda, o) =>
        if sda then (true, o)
        else beginBusRecheck ops cfg o
    else beginBusRecheck ops cfg o

/-- The feature-cache phase of `EE871::begin`: zero the caches, raw
pointer-set to 0x07, then up to three raw auto-increment reads; failures
are non-fatal.  Ends by setting the initialised flag and READY state. -/
def beginFeatureCache (ops : LineOps O) (cfg : Config) (d : Driver)
    (o : O) : (Status × Driver) × O :=
  let d := { d with
    operatingFunctions := 0
    operatingModeSupport := 0
    specialFeatures := 0 }
  match writeCommandRaw ops cfg (makeControlWrite MAIN_CUSTOM_PTR cfg.deviceAddress)
      0x00 CUSTOM_OPERATING_FUNCTIONS o with
  | (stp, o) =>
    let r : Driver × O :=
      if stp.ok then
        match readControlByteRaw ops cfg
            (makeControlRead MAIN_CUSTOM_PTR cfg.deviceAddress)
            d.operatingFunctions o with
        | ((s1, v1), o) =>
          let d := { d with operatingFunctions := v1 }
          if s1.ok then
            match readControlByteRaw ops cfg
                (makeControlRead MAIN_CUSTOM_PTR cfg.deviceAddress)
                d.operatingModeSupport o with
            | ((s2, v2), o) =>
              let d := { d with operatingModeSupport := v2 }
              if s2.ok then
                match readControlByteRaw ops cfg
                    (makeControlRead MAIN_CUSTOM_PTR cfg.deviceAddress)
                    d.specialFeatures o with
                | ((s3, v3), o) => ({ d with specialFeatures := v3 }, o)
              else (d, o)
          else (d, o)
      else (d, o)
    ((Status.Ok,
      { r.1 with
        initialized := true
        driverState := DriverState.READY }), r.2)

/-- `EE871::begin`: double-init check, configuration validation, member
reset, bus idle check with pre-emptive rescue, raw identity probe, then
the non-fatal feature-cache phase. -/
def beginOp (ops : LineOps O) (d : Driver) (cfg : Config) (o : O) :
    (Status × Driver) × O :=
  if d.initialized then
    ((Status.Error Err.ALREADY_INITIALIZED "Call end() first", d), o)
  else
    match beginValidate cfg with
    | some st => ((st, d), o)
    | none =>
      let d := resetDriver d cfg
      match beginBusPrep ops cfg o with
      | (busOk, o) =>
        if busOk then
          match readControlByteRaw ops cfg
              (makeControlRead MAIN_TYPE_LO cfg.deviceAddress) 0 o with
          | ((st, low), o) =>
            if st.ok then
              match readControlByteRaw ops cfg
                  (makeControlRead MAIN_TYPE_HI cfg.deviceAddress) 0 o with
              | ((st, high), o) =>
                if st.ok then
                  if (low ||| (high <<< 8)) = SENSOR_GROUP_ID then
                    beginFeatureCache ops cfg d o
                  else
                    ((Status.ErrorD Err.DEVICE_NOT_FOUND "Unexpected group id"
                        (low ||| (high <<< 8)), d), o)
                else ((st, d), o)
            else ((st, d), o)
        else ((Status.Error Err.BUS_STUCK "Bus stuck after reset", d), o)

/-- `EE871::tick(nowMs)`: store the tick value. -/
def tickOp (d : Driver) (nowMs : Nat) : Driver :=
  { d with nowMs := nowMs }

/-- `EE871::end()`: clear the initialised flag, back to UNINIT. -/
def endOp (d : Driver) : Driver :=
  { d with
    initialized := false
    driverState := DriverState.UNINIT }

/-- The `Config.h` default member initialisers (callbacks null). -/
def defaultConfig : Config where
  hasSetScl := false
  hasSetSda := false
  hasReadScl := false
  hasReadSda := false
  hasDelayUs := false
  deviceAddress := 0
  clockLowUs := 100
  clockHighUs := 100
  startHoldUs := 100
  stopHoldUs := 100
  bitTimeoutUs := 25000
  byteTimeoutUs := 35000
  writeDelayMs := 150
  intervalWriteDelayMs := 300
  offlineThreshold := 5

/-- A freshly constructed `EE871` object, from the `EE871.h` member
initialisers. -/
def freshDriver : Driver where
  config := defaultConfig
  initialized := false
  driverState := DriverState.UNINIT
  nowMs := 0
  lastOkMs := 0
  lastErrorMs := 0
  lastError := Status.Ok
  consecutiveFailures := 0
  totalFailures := 0
  totalSuccess := 0
  operatingFunctions := 0
  operatingModeSupport := 0
  specialFeatures := 0

/-- The driver states reachable through the driver-mutating primitives:
construction, `tick`, `end`, `begin`, and the two tracked transport
wrappers (every tracked device operation mutates the driver exclusively
through `_readControlByteTracked` / `_writeCommandTracked`, and the raw
paths never touch it). -/
inductive Reached : Driver → Prop where
  | fresh : Reached freshDriver
  | tickStep {d : Driver} (nowMs : Nat) : Reached d → Reached (tickOp d nowMs)
  | endStep {d : Driver} : Reached d → Reached (endOp d)
  | beginStep {d : Driver} {O : Type} (ops : LineOps O) (cfg : Config) (o : O) :
      Reached d → Reached (beginOp ops d cfg o).1.2
  | trackedReadStep {d : Driver} {T : Type} (tr : Transport T)
      (controlByte data0 : Nat) (t : T) :
      Reached d → Reached (readControlByteTracked tr d controlByte data0 t).1.2
  | trackedWriteStep {d : Driver} {T : Type} (tr : Transport T)
      (controlByte addressByte dataByte : Nat) (t : T) :
      Reached d → Reached (writeCommandTracked tr d controlByte addressByte dataByte t).1.2

/-- One bus transaction (or flash-commit sleep) as observed at the
transport layer. -/
inductive Tx : Type where
  | write (controlByte addressByte dataByte : Nat)
  | read (controlByte : Nat)
  | sleep (ms : Nat)
  deriving DecidableEq, Repr

/-- A transport wrapper that records every transaction it forwards. -/
def logged (tr : Transport T) : Transport (T × List Tx) where
  readRaw := fun c d0 p =>
    match tr.readRaw c d0 p.1 with
    | ((st, v), t) => ((st, v), (t, p.2 ++ [Tx.read c]))
  writeRaw := fun c a v p =>
    match tr.writeRaw c a v p.1 with
    | (st, t) => (st, (t, p.2 ++ [Tx.write c a v]))
  sleepMs := fun ms p => (tr.sleepMs ms p.1, p.2 ++ [Tx.sleep ms])

/-- A scripted oracle for concrete runs: SCL always reads high (no clock
stretching), SDA samples are consumed from a finite script, line sets
and delays leave the script unchanged. -/
def scriptOps : LineOps (List Bool) where
  setScl := fun _ s => s
  setSda := fun _ s => s
  readScl := fun s => (true, s)
  readSda := fun s =>
    match s with
    | [] => (true, [])
    | b :: r => (b, r)
  delayUs := fun _ s => s

/-- A valid configuration sitting on the documented boundaries. -/
def cfgW : Config where
  hasSetScl := true
  hasSetSda := true
  hasReadScl := true
  hasReadSda := true
  hasDelayUs := true
  deviceAddress := 0
  clockLowUs := 100
  clockHighUs := 100
  startHoldUs := 4
  stopHoldUs := 4
  bitTimeoutUs := 25000
  byteTimeoutUs := 35000
  writeDelayMs := 5000
  intervalWriteDelayMs := 5000
  offlineThreshold := 1

/-- An initialised driver whose feature cache has every bit set. -/
def dW : Driver where
  config := cfgW
  initialized := true
  driverState := DriverState.READY
  nowMs := 42
  lastOkMs := 0
  lastErrorMs := 0
  lastError := Status.Ok
  consecutiveFailures := 0
  totalFailures := 0
  totalSuccess := 0
  operatingFunctions := 0xFF
  operatingModeSupport := 0x03
  specialFeatures := 0x01

/-- A transport in which every transaction succeeds and a read returns
the caller's initial byte. -/
def pureTr : Transport Unit where
  readRaw := fun _ d0 t => ((Status.Ok, d0), t)
  writeRaw := fun _ _ _ t => (Status.Ok, t)
  sleepMs := fun _ t => t

/-- A concrete failing status used in concrete health-machine runs. -/
def stFailW : Status := Status.Error Err.NACK "Control byte NACK"

/-- The SDA script of a clean read transaction answering control byte
0x11: ACK, then data byte 0x67 (MSB first), then the matching PEC
0x78 = (0x11 + 0x67) mod 256. -/
def sW : List Bool :=
  [false,
   false, true, true, false, false, true, true, true,
   false, true, true, true, true, false, false, false]

/-- The SDA script of a successful `begin`: idle bus, group-low read
answering 0x67, group-high read answering 0x03 (both with correct PEC),
an acknowledged pointer-set write, then a NACK on the first feature read
(non-fatal, it leaves the caches zero). -/
def bW : List Bool :=
  [true] ++
  [false, false, true, true, false, false, true, true, true,
   false, true, true, true, true, false, false, false] ++
  [false, false, false, false, false, false, false, true, true,
   false, true, false, false, false, true, false, false] ++
  [false, false, false, false] ++ [true]

/-- The health-machine invariant carried through every reachable state:
READY forces a zero consecutive-failure count, DEGRADED and OFFLINE
force a positive one (UNINIT is unconstrained). -/
def healthInv (d : Driver) : Prop :=
  (d.driverState = DriverState.READY → d.consecutiveFailures = 0) ∧
  (d.driverState = DriverState.DEGRADED → 1 ≤ d.consecutiveFailures) ∧
  (d.driverState = DriverState.OFFLINE → 1 ≤ d.consecutiveFailures)

/-! ## Basic facts about the `Status` predicates -/

@[simp]
theorem Status.ok_mk (c : Err) (d : Int) (m : String) :
    (Status.mk c d m).ok = decide (c = Err.OK) := rfl

@[simp]
theorem Status.ok_Ok : Status.Ok.ok = true := rfl

@[simp]
theorem Status.ok_Error (e : Err) (m : String) :
    (Status.Error e m).ok = decide (e = Err.OK) := rfl

@[simp]
theorem Status.ok_ErrorD (e : Err) (m : String) (d : Int) :
    (Status.ErrorD e m d).ok = decide (e = Err.OK) := rfl

theorem Status.ok_iff (s : Status) : s.ok = true ↔ s.code = Err.OK := by
  simp [Status.ok]

/-! ## Evaluation lemmas for the scripted oracle -/

@[simp]
theorem scriptOps_setScl (b : Bool) (s : List Bool) :
    scriptOps.setScl b s = s := rfl

@[simp]
theorem scriptOps_setSda (b : Bool) (s : List Bool) :
    scriptOps.setSda b s = s := rfl

@[simp]
theorem scriptOps_readScl (s : List Bool) :
    scriptOps.readScl s = (true, s) := rfl

@[simp]
theorem scriptOps_readSda_nil : scriptOps.readSda [] = (true, []) := rfl

@[simp]
theorem scriptOps_readSda_cons (b : Bool) (r : List Bool) :
    scriptOps.readSda (b :: r) = (b, r) := rfl

@[simp]
theorem scriptOps_delayUs (n : Nat) (s : List Bool) :
    scriptOps.delayUs n s = s := rfl

/-- With SCL always reading high there is no clock stretching: the wait
returns at once. -/
@[simp]
theorem waitSclHighAux_scriptOps (cfg : Config) (w : Nat) (e : Option Nat)
    (s : List Bool) :
    waitSclHighAux scriptOps cfg w e s = ((Status.Ok, e), s) := by
  rw [waitSclHighAux]
  simp

/-! ## Frame lemmas for the health update -/

/-- The saturating uint8 increment written as a `min`. -/
theorem satInc8 (n : Nat) (h : n ≤ UINT8_MAX) :
    (if n ≠ UINT8_MAX then n + 1 else n) = min (n + 1) UINT8_MAX := by
  unfold UINT8_MAX at *
  split_ifs <;> omega

/-- The saturating uint32 increment written as a `min`. -/
theorem satInc32 (n : Nat) (h : n ≤ UINT32_MAX) :
    (if n ≠ UINT32_MAX then n + 1 else n) = min (n + 1) UINT32_MAX := by
  unfold UINT32_MAX at *
  split_ifs <;> omega

/-- On a success the health update only touches the last-success
timestamp, the consecutive-failure count, the total-success counter and
the driver state. -/
theorem updateHealth_ok_frame (d : Driver) (st : Status) (h : st.ok = true) :
    (updateHealth d st).lastError = d.lastError ∧
    (updateHealth d st).lastErrorMs = d.lastErrorMs ∧
    (updateHealth d st).totalFailures = d.totalFailures ∧
    (updateHealth d st).config = d.config ∧
    (updateHealth d st).initialized = d.initialized ∧
    (updateHealth d st).nowMs = d.nowMs ∧
    (updateHealth d st).operatingFunctions = d.operatingFunctions := by
  unfold updateHealth
  split_ifs with h1 h2 <;> simp_all

/-- The health update never changes the configuration, the initialised
flag or the current tick. -/
theorem updateHealth_const (d : Driver) (st : Status) :
    (updateHealth d st).config = d.config ∧
    (updateHealth d st).initialized = d.initialized ∧
    (updateHealth d st).nowMs = d.nowMs := by
  unfold updateHealth
  split_ifs <;> simp_all

/-- On a failure (initialised driver) the health update stores the
status and stamps the last-error timestamp. -/
theorem updateHealth_fail_lastError (d : Driver) (st : Status)
    (hInit : d.initialized = true) (hFail : st.ok = false) :
    (updateHealth d st).lastError = st ∧
    (updateHealth d st).lastErrorMs = d.nowMs := by
  unfold updateHealth
  rw [hInit, hFail]
  simp

/-- Folding successful health updates preserves the error-side fields. -/
theorem foldl_ok_frame (l : List Status) :
    ∀ d : Driver, (∀ s ∈ l, s.ok = true) →
      (List.foldl updateHealth d l).lastError = d.lastError ∧
      (List.foldl updateHealth d l).lastErrorMs = d.lastErrorMs ∧
      (List.foldl updateHealth d l).totalFailures = d.totalFailures := by
  induction l with
  | nil => intro d h; simp
  | cons s rest ih =>
    intro d h
    have hs : s.ok = true := h s (by simp)
    have hr := ih (updateHealth d s) (fun x hx => h x (by simp [hx]))
    have hf := updateHealth_ok_frame d s hs
    refine ⟨?_, ?_, ?_⟩
    · rw [List.foldl_cons, hr.1, hf.1]
    · rw [List.foldl_cons, hr.2.1, hf.2.1]
    · rw [List.foldl_cons, hr.2.2, hf.2.2.1]

/-- Claim C1: on an initialised driver, a failing tracked transfer makes
the health update store the failing status as last-error, stamp the
last-error timestamp with the most recently supplied tick, increment
total-failure by one saturating at the uint32 maximum, leave
total-success unchanged, increment the consecutive-failure count by one
saturating at the uint8 maximum, and set the state to OFFLINE when the
resulting count reaches the configured offline threshold, else to
DEGRADED. -/
theorem C1_updateHealth_failure (d : Driver) (st : Status)
    (hInit : d.initialized = true) (hFail : st.ok = false)
    (hcf : d.consecutiveFailures ≤ UINT8_MAX)
    (htf : d.totalFailures ≤ UINT32_MAX) :
    (updateHealth d st).lastError = st ∧
    (updateHealth d st).lastErrorMs = d.nowMs ∧
    (updateHealth d st).totalFailures = min (d.totalFailures + 1) UINT32_MAX ∧
    (updateHealth d st).totalSuccess = d.totalSuccess ∧
    (updateHealth d st).consecutiveFailures =
      min (d.consecutiveFailures + 1) UINT8_MAX ∧
    (updateHealth d st).driverState =
      (if min (d.consecutiveFailures + 1) UINT8_MAX ≥ d.config.offlineThreshold
       then DriverState.OFFLINE else DriverState.DEGRADED) := by
  have e8 := satInc8 d.consecutiveFailures hcf
  have e32 := satInc32 d.totalFailures htf
  unfold updateHealth
  rw [hInit, hFail]
  simp [e8, e32]

/-- Claim C1 witness: the theorem applied to a concrete driver and a
concrete NACK status; the offline threshold is 1, so one failure goes
straight to OFFLINE. -/
theorem C1_updateHealth_failure_witness :
    dW.initialized = true ∧ stFailW.ok = false ∧
    ((updateHealth dW stFailW).lastError = stFailW ∧
     (updateHealth dW stFailW).lastErrorMs = dW.nowMs ∧
     (updateHealth dW stFailW).totalFailures = min (dW.totalFailures + 1) UINT32_MAX ∧
     (updateHealth dW stFailW).totalSuccess = dW.totalSuccess ∧
     (updateHealth dW stFailW).consecutiveFailures =
       min (dW.consecutiveFailures + 1) UINT8_MAX ∧
     (updateHealth dW stFailW).driverState =
       (if min (dW.consecutiveFailures + 1) UINT8_MAX ≥ dW.config.offlineThreshold
        then DriverState.OFFLINE else DriverState.DEGRADED)) :=
  ⟨rfl, rfl,
    C1_updateHealth_failure dW stFailW rfl rfl (by decide) (by decide)⟩

/-- Claim C2: on an initialised driver, a successful tracked transfer
makes the health update stamp the last-success timestamp with the most
recently supplied tick, reset the consecutive-failure count to zero,
increment total-success by one saturating at the uint32 maximum, and
set the state to READY. -/
theorem C2_updateHealth_success (d : Driver) (st : Status)
    (hInit : d.initialized = true) (hOk : st.ok = true)
    (hts : d.totalSuccess ≤ UINT32_MAX) :
    (updateHealth d st).lastOkMs = d.nowMs ∧
    (updateHealth d st).consecutiveFailures = 0 ∧
    (updateHealth d st).totalSuccess = min (d.totalSuccess + 1) UINT32_MAX ∧
    (updateHealth d st).driverState = DriverState.READY := by
  have e32 := satInc32 d.totalSuccess hts
  unfold updateHealth
  rw [hInit, hOk]
  simp [e32]

/-- Claim C2 witness: the theorem applied to a concrete driver and the
OK status. -/
theorem C2_updateHealth_success_witness :
    dW.initialized = true ∧ Status.Ok.ok = true ∧
    ((updateHealth dW Status.Ok).lastOkMs = dW.nowMs ∧
     (updateHealth dW Status.Ok).consecutiveFailures = 0 ∧
     (updateHealth dW Status.Ok).totalSuccess = min (dW.totalSuccess + 1) UINT32_MAX ∧
     (updateHealth dW Status.Ok).driverState = DriverState.READY) :=
  ⟨rfl, rfl, C2_updateHealth_success dW Status.Ok rfl rfl (by decide)⟩

/-- Claim C10: the stored last-error status is written by a failing
tracked operation and survives any number of subsequent successful
tracked operations unchanged, together with its timestamp and the
total-failure counter; a successful update leaves last-error,
last-error-timestamp and total-failure untouched. -/
theorem C10_lastError_persistence (d : Driver) (stF : Status)
    (l : List Status) (hInit : d.initialized = true) (hFail : stF.ok = false)
    (hl : ∀ s ∈ l, s.ok = true) :
    (List.foldl updateHealth (updateHealth d stF) l).lastError = stF ∧
    (List.foldl updateHealth (updateHealth d stF) l).lastErrorMs = d.nowMs ∧
    (∀ (d2 : Driver) (s : Status), s.ok = true →
      (updateHealth d2 s).lastError = d2.lastError ∧
      (updateHealth d2 s).lastErrorMs = d2.lastErrorMs ∧
      (updateHealth d2 s).totalFailures = d2.totalFailures) := by
  have hset := updateHealth_fail_lastError d stF hInit hFail
  have hfold := foldl_ok_frame l (updateHealth d stF) hl
  refine ⟨?_, ?_, ?_⟩
  · rw [hfold.1, hset.1]
  · rw [hfold.2.1, hset.2]
  · intro d2 s hs
    have hf := updateHealth_ok_frame d2 s hs
    exact ⟨hf.1, hf.2.1, hf.2.2.1⟩

/-- Claim C9: `probe`, `busReset` and `checkBusIdle`, whatever status
they return and whatever the bus does, return the driver instance
exactly as it was — state, counters, last-error fields and timestamps
included. -/
theorem C9_diagnostics_frame {O : Type} (ops : LineOps O) (d : Driver) (o : O) :
    (probe ops d o).1.2 = d ∧
    (busReset ops d o).1.2 = d ∧
    (checkBusIdle ops d o).1.2 = d := by
  refine ⟨?_, ?_, ?_⟩
  · unfold probe
    repeat' (first | split | simp only [])
  · unfold busReset
    repeat' (first | split | simp only [])
  · unfold checkBusIdle
    repeat' (first | split | simp only [])

/-- A configuration violating any of the validation rules is rejected by
the validation prefix of `begin` with INVALID_CONFIG. -/
theorem beginValidate_bad (cfg : Config)
    (hbad :
      (!cfg.hasSetScl || !cfg.hasSetSda || !cfg.hasReadScl ||
        !cfg.hasReadSda || !cfg.hasDelayUs) = true ∨
      cfg.deviceAddress > DEVICE_ADDRESS_MAX ∨
      cfg.clockLowUs < 100 ∨ cfg.clockHighUs < 100 ∨
      cfg.startHoldUs < 4 ∨ cfg.stopHoldUs < 4 ∨
      cfg.bitTimeoutUs = 0 ∨ cfg.byteTimeoutUs = 0 ∨
      cfg.byteTimeoutUs < cfg.bitTimeoutUs ∨
      cfg.offlineThreshold = 0 ∨
      cfg.writeDelayMs > WRITE_DELAY_MAX_MS ∨
      cfg.intervalWriteDelayMs > INTERVAL_WRITE_DELAY_MAX_MS) :
    ∃ m, beginValidate cfg = some (Status.Error Err.INVALID_CONFIG m) := by
  unfold beginValidate
  split_ifs with h1 h2 h3 h4 h5 h6 h7 h8 h9
  case _ => exact ⟨_, rfl⟩
  case _ => exact ⟨_, rfl⟩
  case _ => exact ⟨_, rfl⟩
  case _ => exact ⟨_, rfl⟩
  case _ => exact ⟨_, rfl⟩
  case _ => exact ⟨_, rfl⟩
  case _ => exact ⟨_, rfl⟩
  case _ => exact ⟨_, rfl⟩
  case _ => exact ⟨_, rfl⟩
  case _ =>
    exfalso
    rcases hbad with hb | hb | hb | hb | hb | hb | hb | hb | hb | hb | hb | hb <;>
      simp_all

/-- Claim C5: `begin` on a non-initialised driver rejects with
INVALID_CONFIG — before any bus activity and without touching the
driver state — whenever any of the five callbacks is missing, the
device address exceeds 7, either clock width is below 100 µs, either
START/STOP hold is below 4 µs, either stretch timeout is zero, the byte
timeout is below the bit timeout, the offline threshold is zero, or
either flash-commit delay exceeds 5000 ms; a configuration satisfying
all bounds (boundaries included) passes validation; and `begin` on an
already initialised driver rejects with ALREADY_INITIALIZED, again
changing nothing. -/
theorem C5_begin_validation {O : Type} (ops : LineOps O) (d : Driver)
    (cfg : Config) (o : O) :
    (d.initialized = false →
      ((!cfg.hasSetScl || !cfg.hasSetSda || !cfg.hasReadScl ||
         !cfg.hasReadSda || !cfg.hasDelayUs) = true ∨
       cfg.deviceAddress > DEVICE_ADDRESS_MAX ∨
       cfg.clockLowUs < 100 ∨ cfg.clockHighUs < 100 ∨
       cfg.startHoldUs < 4 ∨ cfg.stopHoldUs < 4 ∨
       cfg.bitTimeoutUs = 0 ∨ cfg.byteTimeoutUs = 0 ∨
       cfg.byteTimeoutUs < cfg.bitTimeoutUs ∨
       cfg.offlineThreshold = 0 ∨
       cfg.writeDelayMs > WRITE_DELAY_MAX_MS ∨
       cfg.intervalWriteDelayMs > INTERVAL_WRITE_DELAY_MAX_MS) →
      (beginOp ops d cfg o).1.1.code = Err.INVALID_CONFIG ∧
      (beginOp ops d cfg o).1.2 = d ∧
      (beginOp ops d cfg o).2 = o) ∧
    ((cfg.hasSetScl = true ∧ cfg.hasSetSda = true ∧ cfg.hasReadScl = true ∧
      cfg.hasReadSda = true ∧ cfg.hasDelayUs = true ∧
      cfg.deviceAddress ≤ DEVICE_ADDRESS_MAX ∧
      100 ≤ cfg.clockLowUs ∧ 100 ≤ cfg.clockHighUs ∧
      4 ≤ cfg.startHoldUs ∧ 4 ≤ cfg.stopHoldUs ∧
      cfg.bitTimeoutUs ≠ 0 ∧ cfg.byteTimeoutUs ≠ 0 ∧
      cfg.bitTimeoutUs ≤ cfg.byteTimeoutUs ∧
      cfg.offlineThreshold ≠ 0 ∧
      cfg.writeDelayMs ≤ WRITE_DELAY_MAX_MS ∧
      cfg.intervalWriteDelayMs ≤ INTERVAL_WRITE_DELAY_MAX_MS) →
      beginValidate cfg = none) ∧
    (d.initialized = true →
      beginOp ops d cfg o =
        ((Status.Error Err.ALREADY_INITIALIZED "Call end() first", d), o)) := by
  refine ⟨?_, ?_, ?_⟩
  · intro hInit hbad
    obtain ⟨m, hv⟩ := beginValidate_bad cfg hbad
    unfold beginOp
    rw [hInit, hv]
    simp [Status.Error]
  · intro hgood
    obtain ⟨g1, g2, g3, g4, g5, g6, g7, g8, g9, g10, g11, g12, g13, g14, g15, g16⟩ := hgood
    have n1 : ¬((!cfg.hasSetScl || !cfg.hasSetSda || !cfg.hasReadScl ||
        !cfg.hasReadSda || !cfg.hasDelayUs) = true) := by
      simp [g1, g2, g3, g4, g5]
    have n2 : ¬cfg.deviceAddress > DEVICE_ADDRESS_MAX := by omega
    have n3 : ¬(cfg.clockLowUs < 100 ∨ cfg.clockHighUs < 100) := by omega
    have n4 : ¬(cfg.startHoldUs < 4 ∨ cfg.stopHoldUs < 4) := by omega
    have n5 : ¬(cfg.bitTimeoutUs = 0 ∨ cfg.byteTimeoutUs = 0) := by omega
    have n6 : ¬cfg.byteTimeoutUs < cfg.bitTimeoutUs := by omega
    have n7 : ¬cfg.offlineThreshold = 0 := g14
    have n8 : ¬cfg.writeDelayMs > WRITE_DELAY_MAX_MS := by omega
    have n9 : ¬cfg.intervalWriteDelayMs > INTERVAL_WRITE_DELAY_MAX_MS := by omega
    unfold beginValidate
    rw [if_neg n1, if_neg n2, if_neg n3, if_neg n4, if_neg n5, if_neg n6,
      if_neg n7, if_neg n8, if_neg n9]
  · intro hInit
    unfold beginOp
    rw [hInit]
    simp

/-- Claim C5 witness: the theorem applied on the boundary inputs —
device address 8, clock-low 99, offline threshold 0 and flash delay
5001 are each rejected with INVALID_CONFIG without bus traffic; the
boundary configuration (address 0, clock 100 µs, holds 4 µs, threshold
1, both flash delays 5000 ms) passes validation; and `begin` on an
initialised driver answers ALREADY_INITIALIZED. -/
theorem C5_begin_validation_witness :
    ((beginOp scriptOps freshDriver { cfgW with deviceAddress := 8 } []).1.1.code =
      Err.INVALID_CONFIG ∧
     (beginOp scriptOps freshDriver { cfgW with deviceAddress := 8 } []).1.2 =
      freshDriver ∧
     (beginOp scriptOps freshDriver { cfgW with deviceAddress := 8 } []).2 = []) ∧
    ((beginOp scriptOps freshDriver { cfgW with clockLowUs := 99 } []).1.1.code =
      Err.INVALID_CONFIG) ∧
    ((beginOp scriptOps freshDriver { cfgW with offlineThreshold := 0 } []).1.1.code =
      Err.INVALID_CONFIG) ∧
    ((beginOp scriptOps freshDriver { cfgW with writeDelayMs := 5001 } []).1.1.code =
      Err.INVALID_CONFIG) ∧
    beginValidate cfgW = none ∧
    beginOp scriptOps dW cfgW [] =
      ((Status.Error Err.ALREADY_INITIALIZED "Call end() first", dW), []) := by
  refine ⟨?_, ?_, ?_, ?_, ?_, ?_⟩
  · exact
      (C5_begin_validation scriptOps freshDriver { cfgW with deviceAddress := 8 } []).1
        rfl (by right; left; decide)
  · exact
      ((C5_begin_validation scriptOps freshDriver { cfgW with clockLowUs := 99 } []).1
        rfl (by right; right; left; decide)).1
  · exact
      ((C5_begin_validation scriptOps freshDriver
          { cfgW with offlineThreshold := 0 } []).1
        rfl (by
          right; right; right; right; right; right; right; right; right; left
          decide)).1
  · exact
      ((C5_begin_validation scriptOps freshDriver
          { cfgW with writeDelayMs := 5001 } []).1
        rfl (by
          right; right; right; right; right; right; right; right; right; right
          left; decide)).1
  · exact
      (C5_begin_validation scriptOps freshDriver cfgW []).2.1
        (by refine ⟨rfl, rfl, rfl, rfl, rfl, ?_, ?_, ?_, ?_, ?_, ?_, ?_, ?_, ?_, ?_, ?_⟩ <;> decide)
  · exact (C5_begin_validation scriptOps dW cfgW []).2.2 rfl

/-! ## Transaction-log lemmas for the logging transport -/

/-- A tracked write through the logging transport appends exactly its
write transaction to the log. -/
theorem logged_writeTracked (tr : Transport T) (d : Driver)
    (c a v : Nat) (p : T × List Tx) :
    (writeCommandTracked (logged tr) d c a v p).2.2 =
      p.2 ++ [Tx.write c a v] := by
  unfold writeCommandTracked logged
  rcases h : tr.writeRaw c a v p.1 with ⟨st, t⟩
  simp [h]

/-- A tracked read through the logging transport appends exactly its
read transaction to the log. -/
theorem logged_readTracked (tr : Transport T) (d : Driver)
    (c d0 : Nat) (p : T × List Tx) :
    (readControlByteTracked (logged tr) d c d0 p).2.2 =
      p.2 ++ [Tx.read c] := by
  unfold readControlByteTracked logged
  rcases h : tr.readRaw c d0 p.1 with ⟨⟨st, v⟩, t⟩
  simp [h]

/-- `readControlByte` only ever appends to the log. -/
theorem logged_readOp (tr : Transport T) (d : Driver) (n d0 : Nat)
    (p : T × List Tx) :
    ∃ rest, (readControlByteOp (logged tr) d n d0 p).2.2 = p.2 ++ rest := by
  unfold readControlByteOp
  split_ifs
  · exact ⟨[], by simp⟩
  · exact ⟨[Tx.read (makeControlRead n d.config.deviceAddress)],
      logged_readTracked tr d _ d0 p⟩
  · exact ⟨[], by simp⟩

/-- `setCustomPointer` only ever appends to the log. -/
theorem logged_setCustomPointer (tr : Transport T) (d : Driver) (a : Nat)
    (p : T × List Tx) :
    ∃ rest, (setCustomPointer (logged tr) d a p).2.2 = p.2 ++ rest := by
  unfold setCustomPointer
  split_ifs
  · exact ⟨[], by simp⟩
  · exact ⟨_, logged_writeTracked tr d _ _ _ p⟩
  · exact ⟨[], by simp⟩

/-- The custom-read loop only ever appends to the log. -/
theorem logged_customReadLoop (tr : Transport T) :
    ∀ (n i : Nat) (d : Driver) (buf : List Nat) (p : T × List Tx),
      ∃ rest, (customReadLoop (logged tr) n i d buf p).2.2 = p.2 ++ rest := by
  intro n
  induction n with
  | zero => intro i d buf p; exact ⟨[], by simp [customReadLoop]⟩
  | succ m ih =>
    intro i d buf p
    unfold customReadLoop
    rcases hr : readControlByteOp (logged tr) d MAIN_CUSTOM_PTR
        (buf.getD i 0) p with ⟨⟨⟨st, v⟩, d1⟩, p1⟩
    obtain ⟨r1, hlog1⟩ := logged_readOp tr d MAIN_CUSTOM_PTR (buf.getD i 0) p
    rw [hr] at hlog1
    simp only [] at hlog1
    by_cases hok : st.ok = true
    · obtain ⟨r2, hlog2⟩ := ih (i + 1) d1 (buf.set i v) p1
      exact ⟨r1 ++ r2, by simp [hr, hok, hlog2, hlog1, List.append_assoc]⟩
    · exact ⟨r1, by simp [hr, hok, hlog1]⟩

/-- `customRead` (block form) only ever appends to the log. -/
theorem logged_customReadBlk (tr : Transport T) (d : Driver) (a : Nat)
    (bufNull : Bool) (buf : List Nat) (len : Nat) (p : T × List Tx) :
    ∃ rest, (customReadBlk (logged tr) d a bufNull buf len p).2.2 = p.2 ++ rest := by
  unfold customReadBlk
  split_ifs
  · exact ⟨[], by simp⟩
  · exact ⟨[], by simp⟩
  · rcases hs : setCustomPointer (logged tr) d a p with ⟨⟨st, d1⟩, p1⟩
    obtain ⟨r1, hlog1⟩ := logged_setCustomPointer tr d a p
    rw [hs] at hlog1
    simp only [] at hlog1
    by_cases hok : st.ok = true
    · obtain ⟨r2, hlog2⟩ := logged_customReadLoop tr len 0 d1 buf p1
      exact ⟨r1 ++ r2, by simp [hs, hok, hlog2, hlog1, List.append_assoc]⟩
    · exact ⟨r1, by simp [hs, hok, hlog1]⟩

/-- `customRead` (single-byte form) only ever appends to the log. -/
theorem logged_customRead1 (tr : Transport T) (d : Driver) (a v0 : Nat)
    (p : T × List Tx) :
    ∃ rest, (customRead1 (logged tr) d a v0 p).2.2 = p.2 ++ rest := by
  unfold customRead1
  rcases hb : customReadBlk (logged tr) d a false [v0] 1 p with ⟨⟨⟨st, buf⟩, d1⟩, p1⟩
  obtain ⟨r, hlog⟩ := logged_customReadBlk tr d a false [v0] 1 p
  rw [hb] at hlog
  simp only [] at hlog
  exact ⟨r, by simp [hb, hlog]⟩

/-- The verification tail only ever appends to the log. -/
theorem logged_wmiVerify (tr : Transport T) (d : Driver) (v : Nat)
    (p : T × List Tx) :
    ∃ rest, (wmiVerify (logged tr) d v p).2.2 = p.2 ++ rest := by
  unfold wmiVerify
  rcases hr1 : customRead1 (logged tr) d CUSTOM_INTERVAL_L 0 p with
    ⟨⟨⟨st1, vlo⟩, d1⟩, p1⟩
  obtain ⟨r1, hlog1⟩ := logged_customRead1 tr d CUSTOM_INTERVAL_L 0 p
  rw [hr1] at hlog1
  simp only [] at hlog1
  by_cases h1 : st1.ok = true
  · rcases hr2 : customRead1 (logged tr) d1 CUSTOM_INTERVAL_H 0 p1 with
      ⟨⟨⟨st2, vhi⟩, d2⟩, p2⟩
    obtain ⟨r2, hlog2⟩ := logged_customRead1 tr d1 CUSTOM_INTERVAL_H 0 p1
    rw [hr2] at hlog2
    simp only [] at hlog2
    refine ⟨r1 ++ r2, ?_⟩
    by_cases h2 : st2.ok = true <;> by_cases h3 : (vlo ||| (vhi <<< 8)) = v <;>
      simp [h1, h2, h3, hr1, hr2, hlog1, hlog2, List.append_assoc]
  · exact ⟨r1, by simp [h1, hr1, hlog1]⟩

/-- After the range check passes, the bus sequence starts with the
interval-low write transaction and from there only appends. -/
theorem logged_wmiWrites (tr : Transport T) (d : Driver) (c v : Nat)
    (p : T × List Tx) :
    ∃ rest, (wmiWrites (logged tr) d c v p).2.2 =
      p.2 ++ Tx.write c CUSTOM_INTERVAL_L (v &&& 0xFF) :: rest := by
  unfold wmiWrites
  rcases hw1 : writeCommandTracked (logged tr) d c CUSTOM_INTERVAL_L
      (v &&& 0xFF) p with ⟨⟨st1, d1⟩, p1⟩
  have hlog1 : p1.2 = p.2 ++ [Tx.write c CUSTOM_INTERVAL_L (v &&& 0xFF)] := by
    have h := logged_writeTracked tr d c CUSTOM_INTERVAL_L (v &&& 0xFF) p
    rw [hw1] at h
    exact h
  by_cases h1 : st1.ok = true
  · rcases hw2 : writeCommandTracked (logged tr) d1 c CUSTOM_INTERVAL_H
        (v >>> 8) p1 with ⟨⟨st2, d2⟩, p2⟩
    have hlog2 : p2.2 = p1.2 ++ [Tx.write c CUSTOM_INTERVAL_H (v >>> 8)] := by
      have h := logged_writeTracked tr d1 c CUSTOM_INTERVAL_H (v >>> 8) p1
      rw [hw2] at h
      exact h
    by_cases h2 : st2.ok = true
    · obtain ⟨r, hlog3⟩ := logged_wmiVerify tr d2 v
        ((logged tr).sleepMs d2.config.intervalWriteDelayMs p2)
      have hsleep : ((logged tr).sleepMs d2.config.intervalWriteDelayMs p2).2 =
          p2.2 ++ [Tx.sleep d2.config.intervalWriteDelayMs] := rfl
      refine ⟨Tx.write c CUSTOM_INTERVAL_H (v >>> 8) ::
        Tx.sleep d2.config.intervalWriteDelayMs :: r, ?_⟩
      simp [hw1, h1, hw2, h2, hlog3, hsleep, hlog2, hlog1, List.append_assoc]
    · refine ⟨[Tx.write c CUSTOM_INTERVAL_H (v >>> 8)], ?_⟩
      simp [hw1, h1, hw2, h2, hlog2, hlog1, List.append_assoc]
  · exact ⟨[], by simp [hw1, h1, hlog1]⟩

/-- Claim C4: on an initialised driver whose cached operating-functions
bitfield has the global-interval feature bit set,
`writeMeasurementInterval(v)` with `v` outside [150, 36000] returns
OUT_OF_RANGE carrying `v` as detail, leaves the driver unchanged and
performs no bus interaction whatsoever; `v = 150` and `v = 36000` pass
the range check, the operation then starting with the interval-low
write transaction. -/
theorem C4_writeMeasurementInterval_range {T : Type} (tr : Transport T)
    (d : Driver) (v : Nat) (t : T)
    (hInit : d.initialized = true) (hGI : hasGlobalInterval d = true) :
    ((v < INTERVAL_MIN_DECISEC ∨ v > INTERVAL_MAX_DECISEC) →
      writeMeasurementInterval tr d v t =
        ((Status.ErrorD Err.OUT_OF_RANGE "Interval must be 150-36000 (15-3600s)" v,
          d), t)) ∧
    (∀ l : List Tx, (v = INTERVAL_MIN_DECISEC ∨ v = INTERVAL_MAX_DECISEC) →
      ∃ rest,
        (writeMeasurementInterval (logged tr) d v (t, l)).2.2 =
          l ++ Tx.write (makeControlWrite MAIN_CUSTOM_WRITE d.config.deviceAddress)
                CUSTOM_INTERVAL_L (v &&& 0xFF) :: rest) := by
  constructor
  · intro hrange
    unfold writeMeasurementInterval
    rw [hInit, hGI]
    simp [hrange]
  · intro l hv
    have hnr : ¬(v < INTERVAL_MIN_DECISEC ∨ v > INTERVAL_MAX_DECISEC) := by
      unfold INTERVAL_MIN_DECISEC INTERVAL_MAX_DECISEC at hv ⊢
      omega
    unfold writeMeasurementInterval
    rw [hInit, hGI]
    rw [if_pos rfl, if_pos rfl, if_neg hnr]
    exact logged_wmiWrites tr d
      (makeControlWrite MAIN_CUSTOM_WRITE d.config.deviceAddress) v (t, l)

/-- `readControlByte` never changes the driver configuration. -/
theorem readControlByteOp_config (tr : Transport T) (d : Driver)
    (n d0 : Nat) (t : T) :
    (readControlByteOp tr d n d0 t).1.2.config = d.config := by
  unfold readControlByteOp readControlByteTracked
  split_ifs with h1 h2
  · rfl
  · rcases h : tr.readRaw (makeControlRead n d.config.deviceAddress) d0 t with
      ⟨⟨st, v⟩, t1⟩
    simp [h, (updateHealth_const d st).1]
  · rfl

/-- A successful `readControlByte` implies the driver was initialised. -/
theorem readControlByteOp_ok_init (tr : Transport T) (d : Driver)
    (n d0 : Nat) (t : T)
    (hok : (readControlByteOp tr d n d0 t).1.1.1.ok = true) :
    d.initialized = true := by
  by_cases h : d.initialized = true
  · exact h
  · unfold readControlByteOp at hok
    rw [if_neg h] at hok
    simp [Status.Error] at hok

/-- On an initialised driver with a valid nibble, `readControlByte` over
the logging transport appends exactly one read transaction. -/
theorem logged_readOp_shape (tr : Transport T) (d : Driver)
    (n d0 : Nat) (p : T × List Tx)
    (hi : d.initialized = true) (hn : ¬n > 0x0F) :
    (readControlByteOp (logged tr) d n d0 p).2.2 =
      p.2 ++ [Tx.read (makeControlRead n d.config.deviceAddress)] := by
  unfold readControlByteOp
  rw [hi, if_pos rfl, if_neg hn]
  exact logged_readTracked tr d _ d0 p

/-- A successful pointer set over the logging transport appends exactly
the pointer-set write transaction. -/
theorem logged_setCustomPointer_shape (tr : Transport T) (d : Driver)
    (a : Nat) (p : T × List Tx)
    (hok : (setCustomPointer (logged tr) d a p).1.1.ok = true) :
    (setCustomPointer (logged tr) d a p).2.2 =
      p.2 ++ [Tx.write (makeControlWrite MAIN_CUSTOM_PTR d.config.deviceAddress)
        (a >>> 8) (a &&& 0xFF)] := by
  unfold setCustomPointer at hok ⊢
  split_ifs at hok ⊢ with h1 h2
  · simp [Status.ErrorD] at hok
  · exact logged_writeTracked tr d _ _ _ p
  · simp [Status.Error] at hok

/-- `setCustomPointer` never changes the driver configuration. -/
theorem setCustomPointer_config (tr : Transport T) (d : Driver)
    (a : Nat) (t : T) :
    (setCustomPointer tr d a t).1.2.config = d.config := by
  unfold setCustomPointer writeCommandTracked
  split_ifs with h1 h2
  · rfl
  · rcases h : tr.writeRaw (makeControlWrite MAIN_CUSTOM_PTR d.config.deviceAddress)
        (a >>> 8) (a &&& 0xFF) t with ⟨st, t1⟩
    simp [h, (updateHealth_const d st).1]
  · rfl

/-- A successful run of the custom-read loop over the logging transport
appends exactly one pointer-read transaction per remaining byte — the
pointer is never re-seated. -/
theorem logged_customReadLoop_ok (tr : Transport T) (a0 : Nat) :
    ∀ (n i : Nat) (d : Driver) (buf : List Nat) (p : T × List Tx),
      d.config.deviceAddress = a0 →
      (customReadLoop (logged tr) n i d buf p).1.1.1.ok = true →
      (customReadLoop (logged tr) n i d buf p).2.2 =
        p.2 ++ List.replicate n (Tx.read (makeControlRead MAIN_CUSTOM_PTR a0)) := by
  intro n
  induction n with
  | zero => intro i d buf p ha hok; simp [customReadLoop]
  | succ m ih =>
    intro i d buf p ha hok
    unfold customReadLoop at hok ⊢
    rcases hr : readControlByteOp (logged tr) d MAIN_CUSTOM_PTR
        (buf.getD i 0) p with ⟨⟨⟨st, v⟩, d1⟩, p1⟩
    rw [hr] at hok
    simp only [] at hok ⊢
    by_cases hst : st.ok = true
    · rw [if_pos hst] at hok ⊢
      have hi : d.initialized = true := by
        have h := readControlByteOp_ok_init (logged tr) d MAIN_CUSTOM_PTR
          (buf.getD i 0) p
        rw [hr] at h
        exact h hst
      have hshape : p1.2 =
          p.2 ++ [Tx.read (makeControlRead MAIN_CUSTOM_PTR a0)] := by
        have h := logged_readOp_shape tr d MAIN_CUSTOM_PTR (buf.getD i 0) p hi
          (by decide)
        rw [hr, ha] at h
        exact h
      have hcfg : d1.config = d.config := by
        have h := readControlByteOp_config (logged tr) d MAIN_CUSTOM_PTR
          (buf.getD i 0) p
        rw [hr] at h
        exact h
      have hrec := ih (i + 1) d1 (buf.set i v) p1 (by rw [hcfg, ha]) hok
      rw [hrec, hshape]
      simp [List.replicate_succ, List.append_assoc]
    · rw [if_neg hst] at hok
      simp only [] at hok
      exact absurd hok hst

/-- Claim C6: for any address `A ≤ 255`, length `N ≥ 1` and non-null
buffer, the block `customRead(A, buf, N)` on an initialised driver
returns OUT_OF_RANGE without any bus transaction (and with the driver
untouched) when `A + N > 256`; and every successful run performs
exactly one pointer-set write transaction (nibble 0x5 write, upper
pointer byte 0x00, lower pointer byte `A`) followed by exactly `N`
pointer-read transactions (nibble 0x5 read), never re-seating the
pointer between bytes. -/
theorem C6_customRead_transactions {T : Type} (tr : Transport T)
    (d : Driver) (A : Nat) (buf : List Nat) (len : Nat) (t : T)
    (l : List Tx) (hInit : d.initialized = true) (hA : A ≤ 255)
    (hlen : 1 ≤ len) :
    (A + len > 256 →
      customReadBlk (logged tr) d A false buf len (t, l) =
        (((Status.Error Err.OUT_OF_RANGE "Read exceeds custom memory map", buf),
          d), (t, l))) ∧
    ((customReadBlk (logged tr) d A false buf len (t, l)).1.1.1.ok = true →
      (customReadBlk (logged tr) d A false buf len (t, l)).2.2 =
        l ++ Tx.write (makeControlWrite MAIN_CUSTOM_PTR d.config.deviceAddress)
              0x00 A ::
            List.replicate len
              (Tx.read (makeControlRead MAIN_CUSTOM_PTR d.config.deviceAddress))) := by
  constructor
  · intro hover
    unfold customReadBlk
    rw [if_neg (by simp; omega), if_pos (by unfold CUSTOM_MEMORY_SIZE; omega)]
  · intro hok
    have hhi : A >>> 8 = 0 := by
      rw [Nat.shiftRight_eq_div_pow]
      omega
    have hlo : A &&& 0xFF = A := by
      have h2 : A &&& 255 = A % 2 ^ 8 := Nat.and_pow_two_sub_one_eq_mod A 8
      omega
    unfold customReadBlk at hok ⊢
    rw [if_neg (by simp; omega)] at hok ⊢
    by_cases hrange : len > CUSTOM_MEMORY_SIZE - A
    · rw [if_pos hrange] at hok
      simp [Status.Error] at hok
    · rw [if_neg hrange] at hok ⊢
      rcases hs : setCustomPointer (logged tr) d A (t, l) with ⟨⟨st, d1⟩, p1⟩
      rw [hs] at hok
      simp only [] at hok ⊢
      by_cases hst : st.ok = true
      · rw [if_pos hst] at hok ⊢
        have hshape : p1.2 = l ++ [Tx.write
            (makeControlWrite MAIN_CUSTOM_PTR d.config.deviceAddress)
            (A >>> 8) (A &&& 0xFF)] := by
          have h := logged_setCustomPointer_shape tr d A (t, l) (by rw [hs]; exact hst)
          rw [hs] at h
          exact h
        have hcfg : d1.config = d.config := by
          have h := setCustomPointer_config (logged tr) d A (t, l)
          rw [hs] at h
          exact h
        have hloop := logged_customReadLoop_ok tr d.config.deviceAddress len 0 d1
          buf p1 (by rw [hcfg]) hok
        rw [hloop, hshape, hhi, hlo]
        simp [List.append_assoc]
      · rw [if_neg hst] at hok
        simp only [] at hok
        exact absurd hok hst

/-- Claim C6 witness: the theorem applied at a concrete driver — a read
of 100 bytes at address 200 is rejected OUT_OF_RANGE with an unchanged
log, and a successful 2-byte read at address 10 logs one pointer-set
write followed by exactly two pointer reads. -/
theorem C6_customRead_transactions_witness :
    (customReadBlk (logged pureTr) dW 200 false [0] 100 ((), [])) =
      (((Status.Error Err.OUT_OF_RANGE "Read exceeds custom memory map", [0]),
        dW), ((), [])) ∧
    (customReadBlk (logged pureTr) dW 10 false [0, 0] 2 ((), [])).2.2 =
      [] ++ Tx.write (makeControlWrite MAIN_CUSTOM_PTR dW.config.deviceAddress)
            0x00 10 ::
          List.replicate 2
            (Tx.read (makeControlRead MAIN_CUSTOM_PTR dW.config.deviceAddress)) :=
  ⟨(C6_customRead_transactions pureTr dW 200 [0] 100 () [] rfl (by decide)
      (by decide)).1 (by decide),
   (C6_customRead_transactions pureTr dW 10 [0, 0] 2 () [] rfl (by decide)
      (by decide)).2 (by decide)⟩

/-- Claim C4 witness: the theorem applied at a concrete driver (feature
bit set) — `v = 100` is rejected with OUT_OF_RANGE and no transaction,
and `v = 150` reaches the bus, the first transaction being the
interval-low write. -/
theorem C4_writeMeasurementInterval_range_witness :
    dW.initialized = true ∧ hasGlobalInterval dW = true ∧
    writeMeasurementInterval pureTr dW 100 () =
      ((Status.ErrorD Err.OUT_OF_RANGE "Interval must be 150-36000 (15-3600s)" 100,
        dW), ()) ∧
    (∃ rest,
      (writeMeasurementInterval (logged pureTr) dW 150 ((), [])).2.2 =
        [] ++ Tx.write (makeControlWrite MAIN_CUSTOM_WRITE dW.config.deviceAddress)
              CUSTOM_INTERVAL_L (150 &&& 0xFF) :: rest) :=
  ⟨rfl, rfl,
    (C4_writeMeasurementInterval_range pureTr dW 100 () rfl rfl).1
      (by left; decide),
    (C4_writeMeasurementInterval_range pureTr dW 150 () rfl rfl).2 []
      (by left; rfl)⟩

/-- Claim C10 witness: a concrete failure followed by two successes
still reports the original failure as last error. -/
theorem C10_lastError_persistence_witness :
    dW.initialized = true ∧ stFailW.ok = false ∧
    (∀ s ∈ [Status.Ok, Status.Ok], s.ok = true) ∧
    (List.foldl updateHealth (updateHealth dW stFailW)
      [Status.Ok, Status.Ok]).lastError = stFailW :=
  ⟨rfl, rfl, by decide,
    (C10_lastError_persistence dW stFailW [Status.Ok, Status.Ok] rfl rfl
      (by decide)).1⟩

/-- Claim C3: a single-byte read transaction in which every bus phase
completes cleanly (START, control byte sent and acknowledged, data and
PEC bytes received, both acknowledgement bits sent, STOP) succeeds if
and only if the received PEC equals (control + data) mod 256, and on a
mismatch returns PEC_MISMATCH with detail equal to the received PEC
byte; in particular every successful read satisfies
(control + data) mod 256 = PEC. -/
theorem C3_readControlByteRaw_pec {O : Type} (ops : LineOps O) (cfg : Config)
    (control d0 data pec : Nat) (o o1 o2 o3 o4 o5 o6 o7 o8 : O)
    (e1 e2 e3 e4 e5 e6 : Option Nat)
    (h1 : e2Start ops cfg o = (Status.Ok, o1))
    (h2 : writeByte ops cfg control (some 0) o1 = ((Status.Ok, e1), o2))
    (h3 : readAck ops cfg e1 o2 = ((Status.Ok, true, e2), o3))
    (h4 : readByte ops cfg (some 0) o3 = ((Status.Ok, data, e3), o4))
    (h5 : sendAck ops cfg true e3 o4 = ((Status.Ok, e4), o5))
    (h6 : readByte ops cfg (some 0) o5 = ((Status.Ok, pec, e5), o6))
    (h7 : sendAck ops cfg false e5 o6 = ((Status.Ok, e6), o7))
    (h8 : e2Stop ops cfg o7 = (Status.Ok, o8)) :
    readControlByteRaw ops cfg control d0 o =
      ((if pec = (control + data) % 256 then Status.Ok
        else Status.ErrorD Err.PEC_MISMATCH "PEC mismatch" (pec : Int), data),
        o8) := by
  unfold readControlByteRaw calcPecRead
  rw [h1]
  simp only [Status.ok_Ok, if_true]
  rw [h2]
  simp only [Status.ok_Ok, if_true]
  rw [h3]
  simp only [Status.ok_Ok, if_true]
  rw [h4]
  simp only [Status.ok_Ok, if_true]
  rw [h5]
  simp only [Status.ok_Ok, if_true]
  rw [h6]
  simp only [Status.ok_Ok, if_true]
  rw [h7]
  simp only [Status.ok_Ok, if_true]
  rw [h8]
  simp only [Status.ok_Ok, if_true]
  split_ifs <;> rfl

/-- Claim C3 witness: the theorem applied to a concrete clean run —
control 0x11, data 0x67, received PEC 0x78 = (0x11 + 0x67) mod 256, so
the read succeeds with the data byte 0x67. -/
theorem C3_readControlByteRaw_pec_witness :
    e2Start scriptOps cfgW sW = (Status.Ok, sW) ∧
    writeByte scriptOps cfgW 17 (some 0) sW = ((Status.Ok, some 1680), sW) ∧
    readAck scriptOps cfgW (some 1680) sW =
      ((Status.Ok, true, some 1890),
        [false, true, true, false, false, true, true, true,
         false, true, true, true, true, false, false, false]) ∧
    readByte scriptOps cfgW (some 0)
        [false, true, true, false, false, true, true, true,
         false, true, true, true, true, false, false, false] =
      ((Status.Ok, 103, some 1680),
        [false, true, true, true, true, false, false, false]) ∧
    readByte scriptOps cfgW (some 0)
        [false, true, true, true, true, false, false, false] =
      ((Status.Ok, 120, some 1680), []) ∧
    readControlByteRaw scriptOps cfgW 17 0 sW =
      ((if 120 = (17 + 103) % 256 then Status.Ok
        else Status.ErrorD Err.PEC_MISMATCH "PEC mismatch" (120 : Int), 103),
        ([] : List Bool)) := by
  have h1 : e2Start scriptOps cfgW sW = (Status.Ok, sW) := by
    simp [e2Start, waitSclHigh]
  have h2 : writeByte scriptOps cfgW 17 (some 0) sW =
      ((Status.Ok, some 1680), sW) := by
    simp [writeByte, writeByteAux, byteBits, writeBit, delayE, waitSclHigh, cfgW, sW]
  have h3 : readAck scriptOps cfgW (some 1680) sW =
      ((Status.Ok, true, some 1890),
        [false, true, true, false, false, true, true, true,
         false, true, true, true, true, false, false, false]) := by
    simp [readAck, delayE, waitSclHigh, cfgW, sW]
  have h4 : readByte scriptOps cfgW (some 0)
      [false, true, true, false, false, true, true, true,
       false, true, true, true, true, false, false, false] =
      ((Status.Ok, 103, some 1680),
        [false, true, true, true, true, false, false, false]) := by
    simp [readByte, readByteAux, byteBits, readBit, delayE, waitSclHigh, cfgW]
  have h5 : sendAck scriptOps cfgW true (some 1680)
      [false, true, true, true, true, false, false, false] =
      ((Status.Ok, some 1890),
        [false, true, true, true, true, false, false, false]) := by
    simp [sendAck, delayE, waitSclHigh, cfgW]
  have h6 : readByte scriptOps cfgW (some 0)
      [false, true, true, true, true, false, false, false] =
      ((Status.Ok, 120, some 1680), []) := by
    simp [readByte, readByteAux, byteBits, readBit, delayE, waitSclHigh, cfgW]
  have h7 : sendAck scriptOps cfgW false (some 1680) ([] : List Bool) =
      ((Status.Ok, some 1890), []) := by
    simp [sendAck, delayE, waitSclHigh, cfgW]
  have h8 : e2Stop scriptOps cfgW ([] : List Bool) = (Status.Ok, []) := by
    simp [e2Stop, waitSclHigh]
  exact ⟨h1, h2, h3, h4, h6,
    C3_readControlByteRaw_pec scriptOps cfgW 17 0 103 120 sW sW sW
      _ _ _ [] [] [] (some 1680) (some 1890) (some 1680) (some 1890)
      (some 1680) (some 1890) h1 h2 h3 h4 h5 h6 h7 h8⟩

/-- Claim C8 counterexample: the claim says the NACK detail value
indicates which byte was refused, but two runs refusing different bytes
(the control byte and the data byte, as their messages show) carry the
same detail value 0 — the detail does not identify the refused byte. -/
theorem C8_nack_detail_counterexample :
    (writeCommandRaw scriptOps cfgW 16 0 7 [true]).1.code = Err.NACK ∧
    (writeCommandRaw scriptOps cfgW 16 0 7 [false, false, true]).1.code =
      Err.NACK ∧
    (writeCommandRaw scriptOps cfgW 16 0 7 [true]).1.msg =
      "Control byte NACK" ∧
    (writeCommandRaw scriptOps cfgW 16 0 7 [false, false, true]).1.msg =
      "Data byte NACK" ∧
    (writeCommandRaw scriptOps cfgW 16 0 7 [true]).1.detail =
      (writeCommandRaw scriptOps cfgW 16 0 7 [false, false, true]).1.detail := by
  have e1 : writeCommandRaw scriptOps cfgW 16 0 7 [true] =
      (Status.Error Err.NACK "Control byte NACK", abortStop scriptOps cfgW []) := by
    simp [writeCommandRaw, e2Start, writeByte, writeByteAux, byteBits, writeBit,
      readAck, delayE, waitSclHigh, cfgW]
  have e2 : writeCommandRaw scriptOps cfgW 16 0 7 [false, false, true] =
      (Status.Error Err.NACK "Data byte NACK", abortStop scriptOps cfgW []) := by
    simp [writeCommandRaw, e2Start, writeByte, writeByteAux, byteBits, writeBit,
      readAck, delayE, waitSclHigh, cfgW]
  rw [e1, e2]
  exact ⟨rfl, rfl, rfl, rfl, rfl⟩

/-- Claim C8 amended: in a write transaction, a NACK observed after the
control byte, the address byte, the data byte, or the PEC byte yields a
status of kind NACK whose message (not its detail, which is always 0)
identifies which of those four bytes was refused, and the transaction
is aborted with a best-effort STOP. -/
theorem C8_writeCommand_nack_amended {O : Type} (ops : LineOps O)
    (cfg : Config) (control address data : Nat) (o : O) :
    (∀ (o1 o2 o3 : O) (e1 e2 : Option Nat),
      e2Start ops cfg o = (Status.Ok, o1) →
      writeByte ops cfg control (some 0) o1 = ((Status.Ok, e1), o2) →
      readAck ops cfg e1 o2 = ((Status.Ok, false, e2), o3) →
      writeCommandRaw ops cfg control address data o =
        (Status.Error Err.NACK "Control byte NACK", abortStop ops cfg o3)) ∧
    (∀ (o1 o2 o3 o4 o5 : O) (e1 e2 e3 e4 : Option Nat),
      e2Start ops cfg o = (Status.Ok, o1) →
      writeByte ops cfg control (some 0) o1 = ((Status.Ok, e1), o2) →
      readAck ops cfg e1 o2 = ((Status.Ok, true, e2), o3) →
      writeByte ops cfg address (some 0) o3 = ((Status.Ok, e3), o4) →
      readAck ops cfg e3 o4 = ((Status.Ok, false, e4), o5) →
      writeCommandRaw ops cfg control address data o =
        (Status.Error Err.NACK "Address byte NACK", abortStop ops cfg o5)) ∧
    (∀ (o1 o2 o3 o4 o5 o6 o7 : O) (e1 e2 e3 e4 e5 e6 : Option Nat),
      e2Start ops cfg o = (Status.Ok, o1) →
      writeByte ops cfg control (some 0) o1 = ((Status.Ok, e1), o2) →
      readAck ops cfg e1 o2 = ((Status.Ok, true, e2), o3) →
      writeByte ops cfg address (some 0) o3 = ((Status.Ok, e3), o4) →
      readAck ops cfg e3 o4 = ((Status.Ok, true, e4), o5) →
      writeByte ops cfg data (some 0) o5 = ((Status.Ok, e5), o6) →
      readAck ops cfg e5 o6 = ((Status.Ok, false, e6), o7) →
      writeCommandRaw ops cfg control address data o =
        (Status.Error Err.NACK "Data byte NACK", abortStop ops cfg o7)) ∧
    (∀ (o1 o2 o3 o4 o5 o6 o7 o8 o9 : O)
        (e1 e2 e3 e4 e5 e6 e7 e8 : Option Nat),
      e2Start ops cfg o = (Status.Ok, o1) →
      writeByte ops cfg control (some 0) o1 = ((Status.Ok, e1), o2) →
      readAck ops cfg e1 o2 = ((Status.Ok, true, e2), o3) →
      writeByte ops cfg address (some 0) o3 = ((Status.Ok, e3), o4) →
      readAck ops cfg e3 o4 = ((Status.Ok, true, e4), o5) →
      writeByte ops cfg data (some 0) o5 = ((Status.Ok, e5), o6) →
      readAck ops cfg e5 o6 = ((Status.Ok, true, e6), o7) →
      writeByte ops cfg (calcPecWrite control address data) (some 0) o7 =
        ((Status.Ok, e7), o8) →
      readAck ops cfg e7 o8 = ((Status.Ok, false, e8), o9) →
      writeCommandRaw ops cfg control address data o =
        (Status.Error Err.NACK "PEC NACK", abortStop ops cfg o9)) := by
  refine ⟨?_, ?_, ?_, ?_⟩
  · intro o1 o2 o3 e1 e2 h1 h2 h3
    unfold writeCommandRaw
    rw [h1]
    simp only [Status.ok_Ok, if_true]
    rw [h2]
    simp only [Status.ok_Ok, if_true]
    rw [h3]
    simp
  · intro o1 o2 o3 o4 o5 e1 e2 e3 e4 h1 h2 h3 h4 h5
    unfold writeCommandRaw
    rw [h1]
    simp only [Status.ok_Ok, if_true]
    rw [h2]
    simp only [Status.ok_Ok, if_true]
    rw [h3]
    simp only [Status.ok_Ok, if_true]
    rw [h4]
    simp only [Status.ok_Ok, if_true]
    rw [h5]
    simp
  · intro o1 o2 o3 o4 o5 o6 o7 e1 e2 e3 e4 e5 e6 h1 h2 h3 h4 h5 h6 h7
    unfold writeCommandRaw
    rw [h1]
    simp only [Status.ok_Ok, if_true]
    rw [h2]
    simp only [Status.ok_Ok, if_true]
    rw [h3]
    simp only [Status.ok_Ok, if_true]
    rw [h4]
    simp only [Status.ok_Ok, if_true]
    rw [h5]
    simp only [Status.ok_Ok, if_true]
    rw [h6]
    simp only [Status.ok_Ok, if_true]
    rw [h7]
    simp
  · intro o1 o2 o3 o4 o5 o6 o7 o8 o9 e1 e2 e3 e4 e5 e6 e7 e8
      h1 h2 h3 h4 h5 h6 h7 h8 h9
    unfold writeCommandRaw
    rw [h1]
    simp only [Status.ok_Ok, if_true]
    rw [h2]
    simp only [Status.ok_Ok, if_true]
    rw [h3]
    simp only [Status.ok_Ok, if_true]
    rw [h4]
    simp only [Status.ok_Ok, if_true]
    rw [h5]
    simp only [Status.ok_Ok, if_true]
    rw [h6]
    simp only [Status.ok_Ok, if_true]
    rw [h7]
    simp only [Status.ok_Ok, if_true]
    rw [h8]
    simp only [Status.ok_Ok, if_true]
    rw [h9]
    simp

/-- Claim C8 witness: the amended theorem applied to four concrete runs
of the same write command (control 0x10, address 0x00, data 0x07), each
refusing a different byte: the statuses are NACK with the message
naming the refused byte, and each run ends in the best-effort STOP. -/
theorem C8_writeCommand_nack_amended_witness :
    writeCommandRaw scriptOps cfgW 16 0 7 [true] =
      (Status.Error Err.NACK "Control byte NACK", abortStop scriptOps cfgW []) ∧
    writeCommandRaw scriptOps cfgW 16 0 7 [false, true] =
      (Status.Error Err.NACK "Address byte NACK", abortStop scriptOps cfgW []) ∧
    writeCommandRaw scriptOps cfgW 16 0 7 [false, false, true] =
      (Status.Error Err.NACK "Data byte NACK", abortStop scriptOps cfgW []) ∧
    writeCommandRaw scriptOps cfgW 16 0 7 [false, false, false, true] =
      (Status.Error Err.NACK "PEC NACK", abortStop scriptOps cfgW []) := by
  have hs : ∀ s : List Bool, e2Start scriptOps cfgW s = (Status.Ok, s) := by
    intro s
    simp [e2Start, waitSclHigh]
  have hw : ∀ (v : Nat) (s : List Bool),
      writeByte scriptOps cfgW v (some 0) s = ((Status.Ok, some 1680), s) := by
    intro v s
    simp [writeByte, writeByteAux, byteBits, writeBit, delayE, waitSclHigh, cfgW]
  have ha : ∀ (b : Bool) (s : List Bool),
      readAck scriptOps cfgW (some 1680) (b :: s) =
        ((Status.Ok, !b, some 1890), s) := by
    intro b s
    simp [readAck, delayE, waitSclHigh, cfgW]
  refine ⟨?_, ?_, ?_, ?_⟩
  · exact (C8_writeCommand_nack_amended scriptOps cfgW 16 0 7 [true]).1
      [true] [true] [] (some 1680) (some 1890)
      (hs [true]) (hw 16 [true]) (ha true [])
  · exact (C8_writeCommand_nack_amended scriptOps cfgW 16 0 7 [false, true]).2.1
      [false, true] [false, true] [true] [true] []
      (some 1680) (some 1890) (some 1680) (some 1890)
      (hs [false, true]) (hw 16 [false, true]) (ha false [true])
      (hw 0 [true]) (ha true [])
  · exact
      (C8_writeCommand_nack_amended scriptOps cfgW 16 0 7
        [false, false, true]).2.2.1
      [false, false, true] [false, false, true] [false, true] [false, true]
      [true] [true] []
      (some 1680) (some 1890) (some 1680) (some 1890) (some 1680) (some 1890)
      (hs [false, false, true]) (hw 16 [false, false, true])
      (ha false [false, true]) (hw 0 [false, true]) (ha false [true])
      (hw 7 [true]) (ha true [])
  · exact
      (C8_writeCommand_nack_amended scriptOps cfgW 16 0 7
        [false, false, false, true]).2.2.2
      [false, false, false, true] [false, false, false, true]
      [false, false, true] [false, false, true] [false, true] [false, true]
      [true] [true] []
      (some 1680) (some 1890) (some 1680) (some 1890) (some 1680) (some 1890)
      (some 1680) (some 1890)
      (hs [false, false, false, true]) (hw 16 [false, false, false, true])
      (ha false [false, false, true]) (hw 0 [false, false, true])
      (ha false [false, true]) (hw 7 [false, true]) (ha false [true])
      (hw (calcPecWrite 16 0 7) [true]) (ha true [])

/-- The health update preserves the health-machine invariant for every
status. -/
theorem updateHealth_inv (d : Driver) (st : Status) (ih : healthInv d) :
    healthInv (updateHealth d st) := by
  unfold healthInv updateHealth at *
  by_cases h1 : d.initialized = true
  · rw [if_pos h1]
    by_cases h2 : st.ok = true
    · rw [if_pos h2]
      simp
    · rw [if_neg h2]
      have hcf : (1 : Nat) ≤
          (if d.consecutiveFailures ≠ UINT8_MAX then d.consecutiveFailures + 1
           else d.consecutiveFailures) := by
        unfold UINT8_MAX
        split_ifs <;> omega
      refine ⟨fun hR => ?_, fun hD => hcf, fun hF => hcf⟩
      · exfalso
        revert hR
        simp only []
        split_ifs <;> simp
  · rw [if_neg h1]
    exact ih

/-- The driver component of a tracked read is exactly the health update
applied to the raw status. -/
theorem readControlByteTracked_driver (tr : Transport T) (d : Driver)
    (c d0 : Nat) (t : T) :
    (readControlByteTracked tr d c d0 t).1.2 =
      updateHealth d (tr.readRaw c d0 t).1.1 := by
  unfold readControlByteTracked
  rcases h : tr.readRaw c d0 t with ⟨⟨st, v⟩, t1⟩
  simp [h]

/-- The driver component of a tracked write is exactly the health update
applied to the raw status. -/
theorem writeCommandTracked_driver (tr : Transport T) (d : Driver)
    (c a v : Nat) (t : T) :
    (writeCommandTracked tr d c a v t).1.2 =
      updateHealth d (tr.writeRaw c a v t).1 := by
  unfold writeCommandTracked
  rcases h : tr.writeRaw c a v t with ⟨st, t1⟩
  simp [h]

/-- Every control path of `begin` preserves the health-machine
invariant: rejects leave the driver alone, bus failures leave the reset
driver in UNINIT, and success leaves READY with a zero count. -/
theorem beginOp_inv {O : Type} (ops : LineOps O) (d : Driver) (cfg : Config)
    (o : O) (ih : healthInv d) : healthInv (beginOp ops d cfg o).1.2 := by
  unfold beginOp beginFeatureCache
  repeat' (first | split | simp only [])
  all_goals first
    | exact ih
    | simp [healthInv, resetDriver]

/-- The health-machine invariant holds in every reachable state. -/
theorem reached_healthInv (d : Driver) (h : Reached d) : healthInv d := by
  induction h with
  | fresh => simp [healthInv, freshDriver]
  | tickStep n _ ih => simpa [healthInv, tickOp] using ih
  | endStep _ ih => simp [healthInv, endOp]
  | beginStep ops cfg o _ ih => exact beginOp_inv ops _ cfg o ih
  | trackedReadStep tr c d0 t _ ih =>
    rw [readControlByteTracked_driver]
    exact updateHealth_inv _ _ ih
  | trackedWriteStep tr c a v t _ ih =>
    rw [writeCommandTracked_driver]
    exact updateHealth_inv _ _ ih

/-- Claim C7 counterexample: the claimed equivalence "consecutive-failure
count is zero iff the state is READY" fails in a reachable state — the
freshly constructed driver has count zero and state UNINIT. -/
theorem C7_consecutive_ready_iff_counterexample :
    ¬(∀ d : Driver, Reached d →
        (d.consecutiveFailures = 0 ↔ d.driverState = DriverState.READY)) := by
  intro h
  have h4 := (h freshDriver Reached.fresh).mp rfl
  simp [freshDriver] at h4

/-- Claim C7 amended: in every reachable state whose driver state is not
UNINIT, the consecutive-failure count is zero iff the state is READY
(READY always forces a zero count; the equivalence fails only in UNINIT
states such as a freshly constructed driver or after `end`). -/
theorem C7_consecutive_ready_iff_amended (d : Driver) (h : Reached d)
    (hs : d.driverState ≠ DriverState.UNINIT) :
    (d.consecutiveFailures = 0 ↔ d.driverState = DriverState.READY) := by
  have hi := reached_healthInv d h
  rcases hst : d.driverState with u | r | g | f
  · exact absurd hst hs
  · simp only [iff_true]
    exact hi.1 hst
  · have h1 := hi.2.1 hst
    simp only [show (DriverState.DEGRADED = DriverState.READY) ↔ False by simp,
      iff_false]
    omega
  · have h1 := hi.2.2 hst
    simp only [show (DriverState.OFFLINE = DriverState.READY) ↔ False by simp,
      iff_false]
    omega

set_option maxHeartbeats 2000000 in
/-- Claim C7 amended witness: the amended theorem applied to a concrete
reachable non-UNINIT state — the driver produced by a successful
`begin` run, which is READY with a zero consecutive-failure count. -/
theorem C7_consecutive_ready_iff_amended_witness :
    Reached (beginOp scriptOps freshDriver cfgW bW).1.2 ∧
    (beginOp scriptOps freshDriver cfgW bW).1.2.driverState ≠
      DriverState.UNINIT ∧
    ((beginOp scriptOps freshDriver cfgW bW).1.2.consecutiveFailures = 0 ↔
      (beginOp scriptOps freshDriver cfgW bW).1.2.driverState =
        DriverState.READY) := by
  have hr : Reached (beginOp scriptOps freshDriver cfgW bW).1.2 :=
    Reached.beginStep scriptOps cfgW bW Reached.fresh
  have hs : (beginOp scriptOps freshDriver cfgW bW).1.2.driverState =
      DriverState.READY := by
    simp [beginOp, beginValidate, beginBusPrep, beginFeatureCache, freshDriver,
      cfgW, bW, readControlByteRaw, writeCommandRaw, e2Start, e2Stop, abortStop,
      writeByte, writeByteAux, byteBits, writeBit, readByte, readByteAux,
      readBit, readAck, sendAck, delayE, waitSclHigh, resetDriver,
      makeControlRead, makeControlWrite, makeControlByte, calcPecRead,
      calcPecWrite, MAIN_TYPE_LO, MAIN_TYPE_HI, MAIN_CUSTOM_PTR,
      SENSOR_GROUP_ID, CUSTOM_OPERATING_FUNCTIONS, DEVICE_ADDRESS_MAX,
      WRITE_DELAY_MAX_MS, INTERVAL_WRITE_DELAY_MAX_MS]
  refine ⟨hr, ?_, C7_consecutive_ready_iff_amended _ hr ?_⟩ <;> simp [hs]

end EE871
